import Mathlib

/-! # BMP390 wrapper: configuration mapping, bus transport adapters, sensor facade

A shallow embedding of `bmp390-lib/src/bmp390_driver.cpp`, of the types of
`bmp390-lib/include/bmp390/bmp390_driver.hpp`, and of the polling pass `mainLoop` of
`examples/multisensor_example.cpp`.

* Machine integers are `Nat` / `Int`; a conversion that the source performs to a
  fixed-width type is an explicit wrap (`static_cast_uint8`, `static_cast_uint16`,
  `static_cast_uint32`, `static_cast_int8`, `static_cast_int`).
* The vendor header `third_party/bmp3.h` is not part of the sources.  Its named
  constants are the fields of `Bmp3Defs`, its four entry points are the fields of
  `Vendor`; both are parameters of every definition that uses them.
* Calls through function pointers are recorded in a log carried by the state, so
  that "the callback is invoked once / not at all" is a statement about that log.
-/

namespace bmp390

/-! ## Fixed-width conversions -/

/-- Conversion of a non-negative value to `uint8_t`. -/
def static_cast_uint8 (x : Nat) : Nat := x % 2 ^ 8

/-- Conversion of a non-negative value to `uint16_t`. -/
def static_cast_uint16 (x : Nat) : Nat := x % 2 ^ 16

/-- Conversion of a non-negative value to `uint32_t`. -/
def static_cast_uint32 (x : Nat) : Nat := x % 2 ^ 32

/-- Two's-complement wrap of an integer into the signed range of width `w + 1` bits. -/
def wrap_signed (w : Nat) (x : Int) : Int := (x + 2 ^ w) % 2 ^ (w + 1) - 2 ^ w

/-- Conversion to `int8_t` (the type of the local `rslt`). -/
def static_cast_int8 (x : Int) : Int := wrap_signed 7 x

/-- Conversion to `int` (32 bits), as in `static_cast<int>(rslt)`. -/
def static_cast_int (x : Int) : Int := wrap_signed 31 x

/-! ## Vendor constants (`third_party/bmp3.h`, not in the sources) -/

/-- The named constants of the vendor header that the driver mentions.  The header is
not available, so their numeric values are parameters. -/
structure Bmp3Defs where
  BMP3_NO_OVERSAMPLING : Nat
  BMP3_OVERSAMPLING_2X : Nat
  BMP3_OVERSAMPLING_4X : Nat
  BMP3_OVERSAMPLING_8X : Nat
  BMP3_OVERSAMPLING_16X : Nat
  BMP3_OVERSAMPLING_32X : Nat
  BMP3_ODR_200_HZ : Nat
  BMP3_ODR_100_HZ : Nat
  BMP3_ODR_50_HZ : Nat
  BMP3_ODR_25_HZ : Nat
  BMP3_ODR_12_5_HZ : Nat
  BMP3_ODR_6_25_HZ : Nat
  BMP3_ODR_3_1_HZ : Nat
  BMP3_ODR_1_5_HZ : Nat
  BMP3_ODR_0_78_HZ : Nat
  BMP3_ODR_0_39_HZ : Nat
  BMP3_ODR_0_2_HZ : Nat
  BMP3_ODR_0_1_HZ : Nat
  BMP3_ODR_0_05_HZ : Nat
  BMP3_ODR_0_02_HZ : Nat
  BMP3_ODR_0_01_HZ : Nat
  BMP3_IIR_FILTER_DISABLE : Nat
  BMP3_IIR_FILTER_COEFF_1 : Nat
  BMP3_IIR_FILTER_COEFF_3 : Nat
  BMP3_IIR_FILTER_COEFF_7 : Nat
  BMP3_IIR_FILTER_COEFF_15 : Nat
  BMP3_IIR_FILTER_COEFF_31 : Nat
  BMP3_IIR_FILTER_COEFF_63 : Nat
  BMP3_IIR_FILTER_COEFF_127 : Nat
  BMP3_ENABLE : Nat
  BMP3_SEL_PRESS_EN : Nat
  BMP3_SEL_TEMP_EN : Nat
  BMP3_SEL_PRESS_OS : Nat
  BMP3_SEL_TEMP_OS : Nat
  BMP3_SEL_ODR : Nat
  BMP3_SEL_IIR_FILTER : Nat
  BMP3_MODE_NORMAL : Nat
  BMP3_I2C_INTF : Nat
  BMP3_SPI_INTF : Nat
  BMP3_PRESS_TEMP : Nat

/-- The oversampling, rate and filter constants are 8-bit values: each one is returned
through a `uint8_t` by the mapping helpers. -/
def Bmp3Defs.CodesFitUint8 (d : Bmp3Defs) : Prop :=
  (d.BMP3_NO_OVERSAMPLING < 256 ∧ d.BMP3_OVERSAMPLING_2X < 256 ∧
    d.BMP3_OVERSAMPLING_4X < 256 ∧ d.BMP3_OVERSAMPLING_8X < 256 ∧
    d.BMP3_OVERSAMPLING_16X < 256 ∧ d.BMP3_OVERSAMPLING_32X < 256) ∧
  (d.BMP3_ODR_200_HZ < 256 ∧ d.BMP3_ODR_100_HZ < 256 ∧ d.BMP3_ODR_50_HZ < 256 ∧
    d.BMP3_ODR_25_HZ < 256 ∧ d.BMP3_ODR_12_5_HZ < 256 ∧ d.BMP3_ODR_6_25_HZ < 256 ∧
    d.BMP3_ODR_3_1_HZ < 256 ∧ d.BMP3_ODR_1_5_HZ < 256 ∧ d.BMP3_ODR_0_78_HZ < 256 ∧
    d.BMP3_ODR_0_39_HZ < 256 ∧ d.BMP3_ODR_0_2_HZ < 256 ∧ d.BMP3_ODR_0_1_HZ < 256 ∧
    d.BMP3_ODR_0_05_HZ < 256 ∧ d.BMP3_ODR_0_02_HZ < 256 ∧ d.BMP3_ODR_0_01_HZ < 256) ∧
  (d.BMP3_IIR_FILTER_DISABLE < 256 ∧ d.BMP3_IIR_FILTER_COEFF_1 < 256 ∧
    d.BMP3_IIR_FILTER_COEFF_3 < 256 ∧ d.BMP3_IIR_FILTER_COEFF_7 < 256 ∧
    d.BMP3_IIR_FILTER_COEFF_15 < 256 ∧ d.BMP3_IIR_FILTER_COEFF_31 < 256 ∧
    d.BMP3_IIR_FILTER_COEFF_63 < 256 ∧ d.BMP3_IIR_FILTER_COEFF_127 < 256)

/-- The six settings selectors are 32-bit values: they are or-ed into a `uint32_t`. -/
def Bmp3Defs.SelectorsFitUint32 (d : Bmp3Defs) : Prop :=
  d.BMP3_SEL_PRESS_EN < 2 ^ 32 ∧ d.BMP3_SEL_TEMP_EN < 2 ^ 32 ∧
  d.BMP3_SEL_PRESS_OS < 2 ^ 32 ∧ d.BMP3_SEL_TEMP_OS < 2 ^ 32 ∧
  d.BMP3_SEL_ODR < 2 ^ 32 ∧ d.BMP3_SEL_IIR_FILTER < 2 ^ 32

/-- One instantiation of the vendor constants, with the values commonly published for
Bosch's `bmp3_defs.h`.  It only serves to evaluate the definitions on concrete inputs;
no general statement depends on these values. -/
def bosch_defs : Bmp3Defs where
  BMP3_NO_OVERSAMPLING := 0
  BMP3_OVERSAMPLING_2X := 1
  BMP3_OVERSAMPLING_4X := 2
  BMP3_OVERSAMPLING_8X := 3
  BMP3_OVERSAMPLING_16X := 4
  BMP3_OVERSAMPLING_32X := 5
  BMP3_ODR_200_HZ := 0
  BMP3_ODR_100_HZ := 1
  BMP3_ODR_50_HZ := 2
  BMP3_ODR_25_HZ := 3
  BMP3_ODR_12_5_HZ := 4
  BMP3_ODR_6_25_HZ := 5
  BMP3_ODR_3_1_HZ := 6
  BMP3_ODR_1_5_HZ := 7
  BMP3_ODR_0_78_HZ := 8
  BMP3_ODR_0_39_HZ := 9
  BMP3_ODR_0_2_HZ := 10
  BMP3_ODR_0_1_HZ := 11
  BMP3_ODR_0_05_HZ := 12
  BMP3_ODR_0_02_HZ := 13
  BMP3_ODR_0_01_HZ := 14
  BMP3_IIR_FILTER_DISABLE := 0
  BMP3_IIR_FILTER_COEFF_1 := 1
  BMP3_IIR_FILTER_COEFF_3 := 2
  BMP3_IIR_FILTER_COEFF_7 := 3
  BMP3_IIR_FILTER_COEFF_15 := 4
  BMP3_IIR_FILTER_COEFF_31 := 5
  BMP3_IIR_FILTER_COEFF_63 := 6
  BMP3_IIR_FILTER_COEFF_127 := 7
  BMP3_ENABLE := 1
  BMP3_SEL_PRESS_EN := 2
  BMP3_SEL_TEMP_EN := 4
  BMP3_SEL_PRESS_OS := 16
  BMP3_SEL_TEMP_OS := 32
  BMP3_SEL_ODR := 128
  BMP3_SEL_IIR_FILTER := 64
  BMP3_MODE_NORMAL := 3
  BMP3_I2C_INTF := 1
  BMP3_SPI_INTF := 0
  BMP3_PRESS_TEMP := 3

/-- A second instantiation in which every constant is distinct from every other one of
its family and from the enumerators, so that a wrong table entry would be visible. -/
def shifted_defs : Bmp3Defs where
  BMP3_NO_OVERSAMPLING := 100
  BMP3_OVERSAMPLING_2X := 101
  BMP3_OVERSAMPLING_4X := 102
  BMP3_OVERSAMPLING_8X := 103
  BMP3_OVERSAMPLING_16X := 104
  BMP3_OVERSAMPLING_32X := 105
  BMP3_ODR_200_HZ := 110
  BMP3_ODR_100_HZ := 111
  BMP3_ODR_50_HZ := 112
  BMP3_ODR_25_HZ := 113
  BMP3_ODR_12_5_HZ := 114
  BMP3_ODR_6_25_HZ := 115
  BMP3_ODR_3_1_HZ := 116
  BMP3_ODR_1_5_HZ := 117
  BMP3_ODR_0_78_HZ := 118
  BMP3_ODR_0_39_HZ := 119
  BMP3_ODR_0_2_HZ := 120
  BMP3_ODR_0_1_HZ := 121
  BMP3_ODR_0_05_HZ := 122
  BMP3_ODR_0_02_HZ := 123
  BMP3_ODR_0_01_HZ := 124
  BMP3_IIR_FILTER_DISABLE := 130
  BMP3_IIR_FILTER_COEFF_1 := 131
  BMP3_IIR_FILTER_COEFF_3 := 132
  BMP3_IIR_FILTER_COEFF_7 := 133
  BMP3_IIR_FILTER_COEFF_15 := 134
  BMP3_IIR_FILTER_COEFF_31 := 135
  BMP3_IIR_FILTER_COEFF_63 := 136
  BMP3_IIR_FILTER_COEFF_127 := 137
  BMP3_ENABLE := 1
  BMP3_SEL_PRESS_EN := 2
  BMP3_SEL_TEMP_EN := 4
  BMP3_SEL_PRESS_OS := 16
  BMP3_SEL_TEMP_OS := 32
  BMP3_SEL_ODR := 128
  BMP3_SEL_IIR_FILTER := 64
  BMP3_MODE_NORMAL := 3
  BMP3_I2C_INTF := 1
  BMP3_SPI_INTF := 0
  BMP3_PRESS_TEMP := 3

/-- Modelled from the spec: the value of the vendor's success code `BMP3_OK`, which the
header `third_party/bmp3.h` would define.  The spec (4.2) says of the vendor's result
code that "zero means success, any nonzero/negative value is an opaque vendor error". -/
def BMP3_OK : Int := 0

/-! ## `Config` and its enumerations (`bmp390_driver.hpp`)

Each `enum class E : uint8_t` is represented by its underlying value, a `Nat`; the
enumerators are named constants.  Every value `0 .. 255` is a value of the type. -/

namespace Config

/-- Underlying value of a `Config::Oversampling`. -/
abbrev Oversampling := Nat

/-- Underlying value of a `Config::OutputDataRate`. -/
abbrev OutputDataRate := Nat

/-- Underlying value of a `Config::IirFilterCoeff`. -/
abbrev IirFilterCoeff := Nat

namespace Oversampling
def X1 : Oversampling := 0
def X2 : Oversampling := 1
def X4 : Oversampling := 2
def X8 : Oversampling := 3
def X16 : Oversampling := 4
def X32 : Oversampling := 5
end Oversampling

namespace OutputDataRate
def Hz200 : OutputDataRate := 0
def Hz100 : OutputDataRate := 1
def Hz50 : OutputDataRate := 2
def Hz25 : OutputDataRate := 3
def Hz12_5 : OutputDataRate := 4
def Hz6_25 : OutputDataRate := 5
def Hz3_1 : OutputDataRate := 6
def Hz1_5 : OutputDataRate := 7
def Hz0_78 : OutputDataRate := 8
def Hz0_39 : OutputDataRate := 9
def Hz0_2 : OutputDataRate := 10
def Hz0_1 : OutputDataRate := 11
def Hz0_05 : OutputDataRate := 12
def Hz0_02 : OutputDataRate := 13
def Hz0_01 : OutputDataRate := 14
end OutputDataRate

namespace IirFilterCoeff
def Off : IirFilterCoeff := 0
def Coeff1 : IirFilterCoeff := 1
def Coeff3 : IirFilterCoeff := 2
def Coeff7 : IirFilterCoeff := 3
def Coeff15 : IirFilterCoeff := 4
def Coeff31 : IirFilterCoeff := 5
def Coeff63 : IirFilterCoeff := 6
def Coeff127 : IirFilterCoeff := 7
end IirFilterCoeff

end Config

/-- The value type `Config`: four enumerated settings. -/
structure Config where
  pressure_oversampling : Config.Oversampling
  temperature_oversampling : Config.Oversampling
  odr : Config.OutputDataRate
  iir_filter : Config.IirFilterCoeff
deriving DecidableEq, Repr

/-- The member initialisers of `Config` (`Config cfg{}`). -/
def Config.default : Config where
  pressure_oversampling := Config.Oversampling.X4
  temperature_oversampling := Config.Oversampling.X1
  odr := Config.OutputDataRate.Hz25
  iir_filter := Config.IirFilterCoeff.Coeff3

/-! ## Mapping helpers `Config` → vendor codes -/

open Config in
/-- Embeds `map_oversampling`: a `switch` with one case per enumerator and a `default`. -/
def map_oversampling (d : Bmp3Defs) (os : Config.Oversampling) : Nat :=
  if os = Oversampling.X1 then static_cast_uint8 d.BMP3_NO_OVERSAMPLING
  else if os = Oversampling.X2 then static_cast_uint8 d.BMP3_OVERSAMPLING_2X
  else if os = Oversampling.X4 then static_cast_uint8 d.BMP3_OVERSAMPLING_4X
  else if os = Oversampling.X8 then static_cast_uint8 d.BMP3_OVERSAMPLING_8X
  else if os = Oversampling.X16 then static_cast_uint8 d.BMP3_OVERSAMPLING_16X
  else if os = Oversampling.X32 then static_cast_uint8 d.BMP3_OVERSAMPLING_32X
  else static_cast_uint8 d.BMP3_OVERSAMPLING_4X

open Config in
/-- Embeds `map_odr`. -/
def map_odr (d : Bmp3Defs) (odr : Config.OutputDataRate) : Nat :=
  if odr = OutputDataRate.Hz200 then static_cast_uint8 d.BMP3_ODR_200_HZ
  else if odr = OutputDataRate.Hz100 then static_cast_uint8 d.BMP3_ODR_100_HZ
  else if odr = OutputDataRate.Hz50 then static_cast_uint8 d.BMP3_ODR_50_HZ
  else if odr = OutputDataRate.Hz25 then static_cast_uint8 d.BMP3_ODR_25_HZ
  else if odr = OutputDataRate.Hz12_5 then static_cast_uint8 d.BMP3_ODR_12_5_HZ
  else if odr = OutputDataRate.Hz6_25 then static_cast_uint8 d.BMP3_ODR_6_25_HZ
  else if odr = OutputDataRate.Hz3_1 then static_cast_uint8 d.BMP3_ODR_3_1_HZ
  else if odr = OutputDataRate.Hz1_5 then static_cast_uint8 d.BMP3_ODR_1_5_HZ
  else if odr = OutputDataRate.Hz0_78 then static_cast_uint8 d.BMP3_ODR_0_78_HZ
  else if odr = OutputDataRate.Hz0_39 then static_cast_uint8 d.BMP3_ODR_0_39_HZ
  else if odr = OutputDataRate.Hz0_2 then static_cast_uint8 d.BMP3_ODR_0_2_HZ
  else if odr = OutputDataRate.Hz0_1 then static_cast_uint8 d.BMP3_ODR_0_1_HZ
  else if odr = OutputDataRate.Hz0_05 then static_cast_uint8 d.BMP3_ODR_0_05_HZ
  else if odr = OutputDataRate.Hz0_02 then static_cast_uint8 d.BMP3_ODR_0_02_HZ
  else if odr = OutputDataRate.Hz0_01 then static_cast_uint8 d.BMP3_ODR_0_01_HZ
  else static_cast_uint8 d.BMP3_ODR_25_HZ

open Config in
/-- Embeds `map_iir_filter`. -/
def map_iir_filter (d : Bmp3Defs) (coeff : Config.IirFilterCoeff) : Nat :=
  if coeff = IirFilterCoeff.Off then static_cast_uint8 d.BMP3_IIR_FILTER_DISABLE
  else if coeff = IirFilterCoeff.Coeff1 then static_cast_uint8 d.BMP3_IIR_FILTER_COEFF_1
  else if coeff = IirFilterCoeff.Coeff3 then static_cast_uint8 d.BMP3_IIR_FILTER_COEFF_3
  else if coeff = IirFilterCoeff.Coeff7 then static_cast_uint8 d.BMP3_IIR_FILTER_COEFF_7
  else if coeff = IirFilterCoeff.Coeff15 then static_cast_uint8 d.BMP3_IIR_FILTER_COEFF_15
  else if coeff = IirFilterCoeff.Coeff31 then static_cast_uint8 d.BMP3_IIR_FILTER_COEFF_31
  else if coeff = IirFilterCoeff.Coeff63 then static_cast_uint8 d.BMP3_IIR_FILTER_COEFF_63
  else if coeff = IirFilterCoeff.Coeff127 then static_cast_uint8 d.BMP3_IIR_FILTER_COEFF_127
  else static_cast_uint8 d.BMP3_IIR_FILTER_COEFF_3

/-! ## Bus transport adapter

The application callbacks act on an application state `σ` (the platform: bus, memory,
clock).  A buffer argument is the address it points to.  `World.calls` records every
callback invocation made through a `BusInterface`, oldest first. -/

/-- One invocation of an application callback, with the arguments it received. -/
inductive BusCall where
  | read (reg : Nat) (data : Nat) (len : Nat)
  | write (reg : Nat) (data : Nat) (len : Nat)
  | delay_us (period : Nat)
deriving DecidableEq, Repr

/-- Application state together with the log of callback invocations. -/
structure World (σ : Type) where
  app : σ
  calls : List BusCall

/-- The struct `BusInterface`: three function pointers, `none` being `nullptr`.  The
`read` and `write` callbacks return an `int8_t` status. -/
structure BusInterface (σ : Type) where
  read : Option (Nat → Nat → Nat → σ → Int × σ)
  write : Option (Nat → Nat → Nat → σ → Int × σ)
  delay_us : Option (Nat → σ → σ)

/-- The call `bus->read(reg, data, len)`: runs the callback and logs the invocation. -/
def World.invoke_read {σ : Type} (f : Nat → Nat → Nat → σ → Int × σ)
    (reg data len : Nat) (w : World σ) : Int × World σ :=
  ((f reg data len w.app).1,
    { app := (f reg data len w.app).2, calls := w.calls ++ [BusCall.read reg data len] })

/-- The call `bus->write(reg, data, len)`: runs the callback and logs the invocation. -/
def World.invoke_write {σ : Type} (f : Nat → Nat → Nat → σ → Int × σ)
    (reg data len : Nat) (w : World σ) : Int × World σ :=
  ((f reg data len w.app).1,
    { app := (f reg data len w.app).2, calls := w.calls ++ [BusCall.write reg data len] })

/-- The call `bus->delay_us(period)`: runs the callback and logs the invocation. -/
def World.invoke_delay_us {σ : Type} (f : Nat → σ → σ) (period : Nat) (w : World σ) :
    World σ :=
  { app := f period w.app, calls := w.calls ++ [BusCall.delay_us period] }

/-- Embeds `bmp3_bus_read`.  `intf_ptr` is the context pointer, `none` when null.  The
result type `BMP3_INTF_RET_TYPE` comes from the vendor header; it is taken to be a
signed type holding every `int8_t` (it is `int8_t` in the vendor's sources). -/
def bmp3_bus_read {σ : Type} (reg_addr reg_data length : Nat)
    (intf_ptr : Option (BusInterface σ)) (w : World σ) : Int × World σ :=
  match intf_ptr with
  | none => (-1, w)
  | some bus =>
    match bus.read with
    | none => (-1, w)
    | some rd =>
      if length > 0xFFFF then (-1, w)
      else w.invoke_read rd reg_addr reg_data (static_cast_uint16 length)

/-- Embeds `bmp3_bus_write`. -/
def bmp3_bus_write {σ : Type} (reg_addr reg_data length : Nat)
    (intf_ptr : Option (BusInterface σ)) (w : World σ) : Int × World σ :=
  match intf_ptr with
  | none => (-1, w)
  | some bus =>
    match bus.write with
    | none => (-1, w)
    | some wr =>
      if length > 0xFFFF then (-1, w)
      else w.invoke_write wr reg_addr reg_data (static_cast_uint16 length)

/-- Embeds `bmp3_delay_us` (a `void` function: the result is the new state only). -/
def bmp3_delay_us {σ : Type} (period : Nat) (intf_ptr : Option (BusInterface σ))
    (w : World σ) : World σ :=
  match intf_ptr with
  | none => w
  | some bus =>
    match bus.delay_us with
    | none => w
    | some dl => w.invoke_delay_us dl period

/-- Number of `read` and `write` callback invocations in a log. -/
def transfer_count : List BusCall → Nat
  | [] => 0
  | BusCall.read _ _ _ :: cs => transfer_count cs + 1
  | BusCall.write _ _ _ :: cs => transfer_count cs + 1
  | BusCall.delay_us _ :: cs => transfer_count cs

/-! ### Sample callbacks

The application state of the samples is a counter of the bytes moved on the bus. -/

/-- A read callback that moves `len` bytes and succeeds. -/
def sample_read (_reg _data len : Nat) (bytes : Nat) : Int × Nat := (0, bytes + len)

/-- A write callback that fails with status `-5` on register `0x7E` and succeeds
elsewhere. -/
def sample_write (reg _data len : Nat) (bytes : Nat) : Int × Nat :=
  if reg = 0x7E then (-5, bytes) else (0, bytes + len)

/-- A delay callback; it leaves the byte counter alone. -/
def sample_delay_us (_period : Nat) (bytes : Nat) : Nat := bytes

/-- A bus with all three callbacks set. -/
def sample_bus : BusInterface Nat where
  read := some sample_read
  write := some sample_write
  delay_us := some sample_delay_us

/-- The value-initialised `BusInterface bus{}`: every callback unset. -/
def unset_bus : BusInterface Nat where
  read := none
  write := none
  delay_us := none

/-- A bus with only `write` and `delay_us` set. -/
def write_only_bus : BusInterface Nat :=
  { read := none, write := some sample_write, delay_us := some sample_delay_us }

/-- A bus with only `read` and `delay_us` set. -/
def read_only_bus : BusInterface Nat :=
  { read := some sample_read, write := none, delay_us := some sample_delay_us }

/-- A world in which nothing has happened yet. -/
def sample_world : World Nat where
  app := 0
  calls := []

/-! ## Vendor driver interface (`third_party/bmp3.h`, not in the sources)

The vendor records are modelled by the fields the driver touches.  `ρ` stands for the
remaining, vendor-private fields of `bmp3_dev`.  `P` and `T` are the types of the
`pressure` and `temperature` members of `bmp3_data`, which depend on the vendor's
compensation switch.  A pointer argument that the vendor may write through is modelled
by passing the record in and getting the updated record back. -/

/-- The vendor device record `struct bmp3_dev`. -/
structure bmp3_dev (σ ρ : Type) where
  dev_id : Nat
  intf : Nat
  intf_ptr : Option (BusInterface σ)
  read : Option (Nat → Nat → Nat → Option (BusInterface σ) → World σ → Int × World σ)
  write : Option (Nat → Nat → Nat → Option (BusInterface σ) → World σ → Int × World σ)
  delay_us : Option (Nat → Option (BusInterface σ) → World σ → World σ)
  rest : ρ

/-- The value-initialised record `bmp3_dev{}`; `rest0` is the value-initialised
vendor-private part. -/
def bmp3_dev.zero {σ ρ : Type} (rest0 : ρ) : bmp3_dev σ ρ where
  dev_id := 0
  intf := 0
  intf_ptr := none
  read := none
  write := none
  delay_us := none
  rest := rest0

/-- The vendor settings record `struct bmp3_settings`, by the members the driver sets. -/
structure bmp3_settings where
  op_mode : Nat
  press_en : Nat
  temp_en : Nat
  press_os : Nat
  temp_os : Nat
  odr : Nat
  iir_filter : Nat
deriving DecidableEq, Repr

/-- The value-initialised record `bmp3_settings settings{}`. -/
def bmp3_settings.zero : bmp3_settings where
  op_mode := 0
  press_en := 0
  temp_en := 0
  press_os := 0
  temp_os := 0
  odr := 0
  iir_filter := 0

/-- The vendor sample record `struct bmp3_data`. -/
structure bmp3_data (P T : Type) where
  pressure : P
  temperature : T

/-- How the build represents a sample: the value-initialised members of `bmp3_data`
and the conversion of each member to the `double` type `F` of `Measurement`. -/
structure Compensation (P T F : Type) where
  zero_pressure : P
  zero_temperature : T
  pressure_to_double : P → F
  temperature_to_double : T → F

/-- With `BMP3_FLOAT_COMPENSATION` defined the members are `double` and are assigned
as they are. -/
def float_compensation (F : Type) (zero : F) : Compensation F F F where
  zero_pressure := zero
  zero_temperature := zero
  pressure_to_double := fun p => p
  temperature_to_double := fun t => t

/-- Without `BMP3_FLOAT_COMPENSATION` the members are 64-bit integers (`uint64_t`
pressure, `int64_t` temperature) and each goes through `static_cast<double>`, here the
parameter `to_double`. -/
def integer_compensation (F : Type) (to_double : Int → F) : Compensation Nat Int F where
  zero_pressure := 0
  zero_temperature := 0
  pressure_to_double := fun p => to_double (p : Int)
  temperature_to_double := fun t => to_double t

/-- The four vendor entry points the driver calls.  Each one receives its arguments
and the world (it reaches the hardware through the callbacks bound in the device
record) and gives back its result code, the records it was handed, and the world. -/
structure Vendor (σ ρ P T : Type) where
  bmp3_init : bmp3_dev σ ρ → World σ → Int × bmp3_dev σ ρ × World σ
  bmp3_set_sensor_settings : Nat → bmp3_settings → bmp3_dev σ ρ → World σ →
    Int × bmp3_settings × bmp3_dev σ ρ × World σ
  bmp3_set_op_mode : bmp3_settings → bmp3_dev σ ρ → World σ →
    Int × bmp3_settings × bmp3_dev σ ρ × World σ
  bmp3_get_sensor_data : Nat → bmp3_data P T → bmp3_dev σ ρ → World σ →
    Int × bmp3_data P T × bmp3_dev σ ρ × World σ

/-- The vendor's result codes are `int8_t` values. -/
def Vendor.ReturnsInt8 {σ ρ P T : Type} (v : Vendor σ ρ P T) : Prop :=
  (∀ dev w, -128 ≤ (v.bmp3_init dev w).1 ∧ (v.bmp3_init dev w).1 ≤ 127) ∧
  (∀ sel st dev w, -128 ≤ (v.bmp3_set_sensor_settings sel st dev w).1 ∧
    (v.bmp3_set_sensor_settings sel st dev w).1 ≤ 127) ∧
  (∀ st dev w, -128 ≤ (v.bmp3_set_op_mode st dev w).1 ∧
    (v.bmp3_set_op_mode st dev w).1 ≤ 127) ∧
  (∀ comp data dev w, -128 ≤ (v.bmp3_get_sensor_data comp data dev w).1 ∧
    (v.bmp3_get_sensor_data comp data dev w).1 ≤ 127)

/-- One call of a vendor entry point, with the arguments it received. -/
inductive VendorCall (σ ρ P T : Type) where
  | bmp3_init (dev : bmp3_dev σ ρ)
  | bmp3_set_sensor_settings (desired_settings : Nat) (settings : bmp3_settings)
      (dev : bmp3_dev σ ρ)
  | bmp3_set_op_mode (settings : bmp3_settings) (dev : bmp3_dev σ ρ)
  | bmp3_get_sensor_data (sensor_comp : Nat) (data : bmp3_data P T) (dev : bmp3_dev σ ρ)

/-- Number of mode-switch calls in a log of vendor calls. -/
def count_set_op_mode {σ ρ P T : Type} : List (VendorCall σ ρ P T) → Nat
  | [] => 0
  | VendorCall.bmp3_set_op_mode _ _ :: cs => count_set_op_mode cs + 1
  | _ :: cs => count_set_op_mode cs

/-- Everything outside the facade object: the world of the bus callbacks and the log of
vendor calls, oldest first. -/
structure Sys (σ ρ P T : Type) where
  world : World σ
  vendor_calls : List (VendorCall σ ρ P T)

/-! ## Sensor facade `Bmp390` -/

/-- The struct `Measurement`; `F` is the type `double`. -/
structure Measurement (F : Type) where
  pressure_pa : F
  temperature_c : F

/-- The data members of `class Bmp390`.  `dev_` is the pointer to the heap-allocated
vendor record, `none` when null. -/
structure Bmp390 (σ ρ : Type) where
  dev_id_ : Nat
  use_i2c_ : Bool
  bus_ : BusInterface σ
  dev_ : Option (bmp3_dev σ ρ)

/-- Embeds the constructor `Bmp390::Bmp390` (a member function cannot bear the name of
its structure here): copies its arguments and allocates a
value-initialised vendor record. -/
def Bmp390.construct {σ ρ : Type} (rest0 : ρ) (dev_id : Nat) (bus : BusInterface σ)
    (use_i2c : Bool) : Bmp390 σ ρ where
  dev_id_ := dev_id
  use_i2c_ := use_i2c
  bus_ := bus
  dev_ := some (bmp3_dev.zero rest0)

/-- Embeds `Bmp390::init`.  The context pointer `&bus_` is modelled by the value of
`bus_`, which no member function modifies. -/
def Bmp390.init {σ ρ P T : Type} (d : Bmp3Defs) (v : Vendor σ ρ P T) (self : Bmp390 σ ρ)
    (s : Sys σ ρ P T) : Int × Bmp390 σ ρ × Sys σ ρ P T :=
  match self.dev_ with
  | none => (-1, self, s)
  | some dev0 =>
    let dev : bmp3_dev σ ρ :=
      { dev0 with
        dev_id := self.dev_id_
        intf := if self.use_i2c_ then d.BMP3_I2C_INTF else d.BMP3_SPI_INTF
        intf_ptr := some self.bus_
        read := some bmp3_bus_read
        write := some bmp3_bus_write
        delay_us := some bmp3_delay_us }
    let r := v.bmp3_init dev s.world
    let rslt := static_cast_int8 r.1
    (static_cast_int rslt, { self with dev_ := some r.2.1 },
      { world := r.2.2, vendor_calls := s.vendor_calls ++ [VendorCall.bmp3_init dev] })

/-- The local `settings` of `Bmp390::configure` at the point of the settings-update
call: value-initialised, then the six member assignments. -/
def Bmp390.configure_settings (d : Bmp3Defs) (config : Config) : bmp3_settings :=
  { bmp3_settings.zero with
    press_en := d.BMP3_ENABLE
    temp_en := d.BMP3_ENABLE
    press_os := map_oversampling d config.pressure_oversampling
    temp_os := map_oversampling d config.temperature_oversampling
    odr := map_odr d config.odr
    iir_filter := map_iir_filter d config.iir_filter }

/-- The local `desired_settings` of `Bmp390::configure` (a `uint32_t`) at the point of
the settings-update call: zero, then six `|=`. -/
def Bmp390.configure_desired_settings (d : Bmp3Defs) : Nat :=
  let desired_settings : Nat := 0
  let desired_settings := static_cast_uint32 (desired_settings ||| d.BMP3_SEL_PRESS_EN)
  let desired_settings := static_cast_uint32 (desired_settings ||| d.BMP3_SEL_TEMP_EN)
  let desired_settings := static_cast_uint32 (desired_settings ||| d.BMP3_SEL_PRESS_OS)
  let desired_settings := static_cast_uint32 (desired_settings ||| d.BMP3_SEL_TEMP_OS)
  let desired_settings := static_cast_uint32 (desired_settings ||| d.BMP3_SEL_ODR)
  static_cast_uint32 (desired_settings ||| d.BMP3_SEL_IIR_FILTER)

/-- Embeds `Bmp390::configure`.  The two locals built before the first vendor call are
`Bmp390.configure_settings` and `Bmp390.configure_desired_settings`. -/
def Bmp390.configure {σ ρ P T : Type} (d : Bmp3Defs) (v : Vendor σ ρ P T)
    (self : Bmp390 σ ρ) (config : Config) (s : Sys σ ρ P T) :
    Int × Bmp390 σ ρ × Sys σ ρ P T :=
  match self.dev_ with
  | none => (-1, self, s)
  | some dev =>
    let settings := Bmp390.configure_settings d config
    let desired_settings := Bmp390.configure_desired_settings d
    let r := v.bmp3_set_sensor_settings desired_settings settings dev s.world
    let rslt := static_cast_int8 r.1
    let calls := s.vendor_calls ++
      [VendorCall.bmp3_set_sensor_settings desired_settings settings dev]
    if rslt ≠ BMP3_OK then
      (static_cast_int rslt, { self with dev_ := some r.2.2.1 },
        { world := r.2.2.2, vendor_calls := calls })
    else
      let settings : bmp3_settings := { r.2.1 with op_mode := d.BMP3_MODE_NORMAL }
      let r2 := v.bmp3_set_op_mode settings r.2.2.1 r.2.2.2
      let rslt := static_cast_int8 r2.1
      let calls := calls ++ [VendorCall.bmp3_set_op_mode settings r.2.2.1]
      if rslt ≠ BMP3_OK then
        (static_cast_int rslt, { self with dev_ := some r2.2.2.1 },
          { world := r2.2.2.2, vendor_calls := calls })
      else
        (static_cast_int rslt, { self with dev_ := some r2.2.2.1 },
          { world := r2.2.2.2, vendor_calls := calls })

/-- Embeds `Bmp390::read_measurement`.  `out` is the caller's `Measurement`, returned
as the third component.  Both branches of the `BMP3_FLOAT_COMPENSATION` switch assign
the two members of `data` to `out`, as they are or through `static_cast<double>`; the
parameter `k` says which. -/
def Bmp390.read_measurement {σ ρ P T F : Type} (d : Bmp3Defs) (v : Vendor σ ρ P T)
    (k : Compensation P T F) (self : Bmp390 σ ρ) (out : Measurement F) (s : Sys σ ρ P T) :
    Int × Bmp390 σ ρ × Measurement F × Sys σ ρ P T :=
  match self.dev_ with
  | none => (-1, self, out, s)
  | some dev =>
    let data : bmp3_data P T :=
      { pressure := k.zero_pressure, temperature := k.zero_temperature }
    let r := v.bmp3_get_sensor_data d.BMP3_PRESS_TEMP data dev s.world
    let rslt := static_cast_int8 r.1
    let calls := s.vendor_calls ++ [VendorCall.bmp3_get_sensor_data d.BMP3_PRESS_TEMP data dev]
    if rslt ≠ BMP3_OK then
      (static_cast_int rslt, { self with dev_ := some r.2.2.1 }, out,
        { world := r.2.2.2, vendor_calls := calls })
    else
      let out : Measurement F :=
        { pressure_pa := k.pressure_to_double r.2.1.pressure
          temperature_c := k.temperature_to_double r.2.1.temperature }
      (static_cast_int rslt, { self with dev_ := some r.2.2.1 }, out,
        { world := r.2.2.2, vendor_calls := calls })

/-! ### Sample vendor

A vendor whose entry points give fixed result codes and a fixed sample, and leave the
records and the world as they found them. -/

/-- A vendor with result codes `r_init`, `r_settings`, `r_mode`, `r_data` and sample
`(p, t)`. -/
def stub_vendor {P T : Type} (r_init r_settings r_mode r_data : Int) (p : P) (t : T) :
    Vendor Nat Unit P T where
  bmp3_init := fun dev w => (r_init, dev, w)
  bmp3_set_sensor_settings := fun _ st dev w => (r_settings, st, dev, w)
  bmp3_set_op_mode := fun st dev w => (r_mode, st, dev, w)
  bmp3_get_sensor_data := fun _ _ dev w => (r_data, { pressure := p, temperature := t }, dev, w)

/-- The facade of the example program: I2C address `0x76`, all callbacks set. -/
def sample_facade : Bmp390 Nat Unit := Bmp390.construct () 0x76 sample_bus true

/-- A system in which nothing has happened yet. -/
def sample_sys (P T : Type) : Sys Nat Unit P T where
  world := sample_world
  vendor_calls := []

end bmp390

/-! ## Multi-sensor example (`examples/multisensor_example.cpp`)

`double` is a type parameter `F`.  The operations `mainLoop` applies to it (the test
`std::isnan`, `+`, `/`, `>`, the conversion from `int`, and three literals) are the
fields of `DoubleOps`, parameters of every definition below, so that no statement
depends on how they round.  What the program prints on `std::cout` is recorded as a
list of `Printed` items, oldest first. -/

namespace multisensor_example

open bmp390

/-- The `double` operations and literals that `mainLoop` uses. -/
structure DoubleOps (F : Type) where
  nan : F
  isnan : F → Bool
  add : F → F → F
  div : F → F → F
  gt : F → F → Bool
  of_int : Int → F
  lit_0_0 : F
  lit_30_0 : F
  lit_minus_1e9 : F

/-- Facts about the comparison `>` of `double`: it is irreflexive and transitive, on
values that are not NaN `a <= b` and `b <= c` give `a <= c`, the literal `30.0` is not
NaN, and `30.0 > -1e9`. -/
def DoubleOps.ComparisonLaws {F : Type} (ops : DoubleOps F) : Prop :=
  (∀ a, ops.gt a a = false) ∧
  (∀ a b c, ops.gt a b = true → ops.gt b c = true → ops.gt a c = true) ∧
  (∀ a b c, ops.isnan a = false → ops.isnan b = false → ops.isnan c = false →
    ops.gt a b = false → ops.gt b c = false → ops.gt a c = false) ∧
  ops.isnan ops.lit_30_0 = false ∧
  ops.gt ops.lit_30_0 ops.lit_minus_1e9 = true

/-- The interface `ISensor`, as the table of its three virtual member functions over
a type `S` of sensor objects.  `update` may reach the hardware, the world `W`; `log`
yields the line it writes; the two `const` members leave the sensor as it is. -/
structure ISensor (F S W L : Type) where
  update : S → W → S × W
  getTemperatureC : S → F
  log : S → L

/-- What the program writes on `std::cout`: a line logged by a sensor, the line with
the mean temperature, the line saying that no temperature is available, and the
alarm line written by `raiseAlarm`. -/
inductive Printed (F L : Type) where
  | sensor_log (line : L)
  | mean (avg_temp : F)
  | no_temperature
  | alarm (max_temp : F)
deriving DecidableEq

/-- The four locals of a pass of `mainLoop`. -/
structure Locals (F : Type) where
  sum_temp : F
  count_temp : Int
  max_temp_seen : F
  alarm : Bool

/-- The state of one pass of `mainLoop`: the world, the sensors visited so far (as
updated), the output so far and the locals of the pass. -/
structure LoopState (F S W L : Type) where
  world : W
  sensors : List S
  cout : List (Printed F L)
  locals : Locals F

/-- The local constant `alarm_threshold = 30.0`. -/
def alarm_threshold {F : Type} (ops : DoubleOps F) : F := ops.lit_30_0

/-- The state at the top of a pass: the four locals as initialised, nothing visited,
nothing printed. -/
def mainLoop.init {F S W L : Type} (ops : DoubleOps F) (w : W) : LoopState F S W L where
  world := w
  sensors := []
  cout := []
  locals :=
    { sum_temp := ops.lit_0_0
      count_temp := 0
      max_temp_seen := ops.lit_minus_1e9
      alarm := false }

/-- Step 3 of the loop body, on the locals: the block guarded by `!std::isnan(t)`. -/
def mainLoop.record {F : Type} (ops : DoubleOps F) (loc : Locals F) (t : F) : Locals F :=
  if ops.isnan t = false then
    let loc : Locals F :=
      { loc with
        sum_temp := ops.add loc.sum_temp t
        count_temp := static_cast_int (loc.count_temp + 1) }
    let loc : Locals F :=
      if ops.gt t loc.max_temp_seen = true then { loc with max_temp_seen := t } else loc
    if ops.gt t (alarm_threshold ops) = true then { loc with alarm := true } else loc
  else loc

/-- The body of `for (const auto& sensor : sensors)`: update, log, read the
temperature, record it. -/
def mainLoop.body {F S W L : Type} (ops : DoubleOps F) (vt : ISensor F S W L)
    (st : LoopState F S W L) (sensor : S) : LoopState F S W L :=
  let u := vt.update sensor st.world
  let cout := st.cout ++ [Printed.sensor_log (vt.log u.1)]
  let t := vt.getTemperatureC u.1
  { world := u.2
    sensors := st.sensors ++ [u.1]
    cout := cout
    locals := mainLoop.record ops st.locals t }

/-- The `for` loop of `mainLoop` over the sensor list, from the initial locals. -/
def mainLoop.poll {F S W L : Type} (ops : DoubleOps F) (vt : ISensor F S W L)
    (sensors : List S) (w : W) : LoopState F S W L :=
  sensors.foldl (mainLoop.body ops vt) (mainLoop.init ops w)

/-- Embeds `raiseAlarm`: one line with the value it is given. -/
def raiseAlarm {F L : Type} (max_temp : F) (cout : List (Printed F L)) :
    List (Printed F L) :=
  cout ++ [Printed.alarm max_temp]

/-- Embeds `mainLoop`: the one pass that the `while (true)` makes before its `break`.
The result holds the locals at the end of the pass and everything printed. -/
def mainLoop {F S W L : Type} (ops : DoubleOps F) (vt : ISensor F S W L)
    (sensors : List S) (w : W) : LoopState F S W L :=
  let st := mainLoop.poll ops vt sensors w
  let st : LoopState F S W L :=
    if st.locals.count_temp > 0 then
      let avg_temp := ops.div st.locals.sum_temp (ops.of_int st.locals.count_temp)
      { st with cout := st.cout ++ [Printed.mean avg_temp] }
    else
      { st with cout := st.cout ++ [Printed.no_temperature] }
  if st.locals.alarm = true then
    { st with cout := raiseAlarm st.locals.max_temp_seen st.cout }
  else st

/-! ### Readings of a pass (for the statements) -/

/-- The temperatures `t` that a pass reads, in list order: each sensor is updated in
the world left by the sensors before it, then asked for its temperature. -/
def readings {F S W L : Type} (vt : ISensor F S W L) : List S → W → List F
  | [], _ => []
  | sensor :: rest, w =>
    vt.getTemperatureC (vt.update sensor w).1 :: readings vt rest (vt.update sensor w).2

/-- The valid readings of a pass: those that are not NaN. -/
def valid_readings {F S W L : Type} (ops : DoubleOps F) (vt : ISensor F S W L)
    (sensors : List S) (w : W) : List F :=
  (readings vt sensors w).filter (fun t => !ops.isnan t)

/-- The value `m` is the maximum of the list `ts`: it compares equal to a member of
`ts` and no member of `ts` is greater. -/
def is_maximum_of {F : Type} (ops : DoubleOps F) (m : F) (ts : List F) : Prop :=
  (∃ t ∈ ts, ops.gt t m = false ∧ ops.gt m t = false) ∧ ∀ u ∈ ts, ops.gt u m = false

/-! ### Sample `double` and sample sensors

`Option Rat` with exact arithmetic stands for `double` in the concrete evaluations:
`none` is NaN. -/

/-- The operations on `Option Rat`: NaN propagates through `+` and `/`, every
comparison with NaN is false, and a division by zero gives NaN. -/
def rational_double : DoubleOps (Option Rat) where
  nan := none
  isnan := fun a => a.isNone
  add := fun a b =>
    match a, b with
    | some x, some y => some (x + y)
    | _, _ => none
  div := fun a b =>
    match a, b with
    | some x, some y => if y = 0 then none else some (x / y)
    | _, _ => none
  gt := fun a b =>
    match a, b with
    | some x, some y => decide (x > y)
    | _, _ => false
  of_int := fun n => some (n : Rat)
  lit_0_0 := some 0
  lit_30_0 := some 30
  lit_minus_1e9 := some (-1000000000)

/-- A sensor whose `update` takes its next reading from the world, a queue of
readings (NaN when the queue is empty); the sensor object is its last reading. -/
def queue_sensor : ISensor (Option Rat) (Option Rat) (List (Option Rat)) (Option Rat) where
  update := fun _ w =>
    match w with
    | [] => (none, [])
    | r :: rest => (r, rest)
  getTemperatureC := fun s => s
  log := fun s => s

end multisensor_example

namespace bmp390

/-! # Theorems -/

/-! ## Helper lemmas -/

lemma static_cast_uint8_of_lt {x : Nat} (h : x < 256) : static_cast_uint8 x = x := by
  unfold static_cast_uint8
  exact Nat.mod_eq_of_lt (by simpa using h)

lemma static_cast_uint16_of_le {x : Nat} (h : x ≤ 65535) : static_cast_uint16 x = x := by
  unfold static_cast_uint16
  exact Nat.mod_eq_of_lt (by norm_num; omega)

lemma transfer_count_append (xs ys : List BusCall) :
    transfer_count (xs ++ ys) = transfer_count xs + transfer_count ys := by
  induction xs with
  | nil => simp [transfer_count]
  | cons c cs ih =>
    cases c <;> simp [transfer_count, ih] <;> omega

lemma static_cast_int8_of_range {r : Int} (hlo : -128 ≤ r) (hhi : r ≤ 127) :
    static_cast_int8 r = r := by
  unfold static_cast_int8 wrap_signed
  norm_num
  omega

lemma static_cast_int_of_range {r : Int} (hlo : -128 ≤ r) (hhi : r ≤ 127) :
    static_cast_int r = r := by
  unfold static_cast_int wrap_signed
  norm_num
  omega

lemma static_cast_uint32_or {x y : Nat} (hx : x < 2 ^ 32) (hy : y < 2 ^ 32) :
    static_cast_uint32 (x ||| y) = x ||| y := by
  unfold static_cast_uint32
  exact Nat.mod_eq_of_lt (Nat.or_lt_two_pow hx hy)

lemma stub_vendor_returns_int8 {P T : Type} (r_init r_settings r_mode r_data : Int)
    (p : P) (t : T)
    (h1 : -128 ≤ r_init ∧ r_init ≤ 127) (h2 : -128 ≤ r_settings ∧ r_settings ≤ 127)
    (h3 : -128 ≤ r_mode ∧ r_mode ≤ 127) (h4 : -128 ≤ r_data ∧ r_data ≤ 127) :
    (stub_vendor r_init r_settings r_mode r_data p t).ReturnsInt8 :=
  ⟨fun _ _ => h1, fun _ _ _ _ => h2, fun _ _ _ => h3, fun _ _ _ _ => h4⟩

/-! ## Mapping helpers -/

/-- C1: every enumerator of `Oversampling`, `OutputDataRate` and `IirFilterCoeff` is
mapped to the vendor constant of the same name: `X1 .. X32` to `BMP3_NO_OVERSAMPLING`,
`BMP3_OVERSAMPLING_2X .. _32X`; `Hz200 .. Hz0_01` to `BMP3_ODR_200_HZ .. BMP3_ODR_0_01_HZ`;
`Off` to `BMP3_IIR_FILTER_DISABLE` and `CoeffN` to `BMP3_IIR_FILTER_COEFF_N`. -/
theorem map_legal_values (d : Bmp3Defs) (hd : d.CodesFitUint8) :
    (map_oversampling d Config.Oversampling.X1 = d.BMP3_NO_OVERSAMPLING ∧
      map_oversampling d Config.Oversampling.X2 = d.BMP3_OVERSAMPLING_2X ∧
      map_oversampling d Config.Oversampling.X4 = d.BMP3_OVERSAMPLING_4X ∧
      map_oversampling d Config.Oversampling.X8 = d.BMP3_OVERSAMPLING_8X ∧
      map_oversampling d Config.Oversampling.X16 = d.BMP3_OVERSAMPLING_16X ∧
      map_oversampling d Config.Oversampling.X32 = d.BMP3_OVERSAMPLING_32X) ∧
    (map_odr d Config.OutputDataRate.Hz200 = d.BMP3_ODR_200_HZ ∧
      map_odr d Config.OutputDataRate.Hz100 = d.BMP3_ODR_100_HZ ∧
      map_odr d Config.OutputDataRate.Hz50 = d.BMP3_ODR_50_HZ ∧
      map_odr d Config.OutputDataRate.Hz25 = d.BMP3_ODR_25_HZ ∧
      map_odr d Config.OutputDataRate.Hz12_5 = d.BMP3_ODR_12_5_HZ ∧
      map_odr d Config.OutputDataRate.Hz6_25 = d.BMP3_ODR_6_25_HZ ∧
      map_odr d Config.OutputDataRate.Hz3_1 = d.BMP3_ODR_3_1_HZ ∧
      map_odr d Config.OutputDataRate.Hz1_5 = d.BMP3_ODR_1_5_HZ ∧
      map_odr d Config.OutputDataRate.Hz0_78 = d.BMP3_ODR_0_78_HZ ∧
      map_odr d Config.OutputDataRate.Hz0_39 = d.BMP3_ODR_0_39_HZ ∧
      map_odr d Config.OutputDataRate.Hz0_2 = d.BMP3_ODR_0_2_HZ ∧
      map_odr d Config.OutputDataRate.Hz0_1 = d.BMP3_ODR_0_1_HZ ∧
      map_odr d Config.OutputDataRate.Hz0_05 = d.BMP3_ODR_0_05_HZ ∧
      map_odr d Config.OutputDataRate.Hz0_02 = d.BMP3_ODR_0_02_HZ ∧
      map_odr d Config.OutputDataRate.Hz0_01 = d.BMP3_ODR_0_01_HZ) ∧
    (map_iir_filter d Config.IirFilterCoeff.Off = d.BMP3_IIR_FILTER_DISABLE ∧
      map_iir_filter d Config.IirFilterCoeff.Coeff1 = d.BMP3_IIR_FILTER_COEFF_1 ∧
      map_iir_filter d Config.IirFilterCoeff.Coeff3 = d.BMP3_IIR_FILTER_COEFF_3 ∧
      map_iir_filter d Config.IirFilterCoeff.Coeff7 = d.BMP3_IIR_FILTER_COEFF_7 ∧
      map_iir_filter d Config.IirFilterCoeff.Coeff15 = d.BMP3_IIR_FILTER_COEFF_15 ∧
      map_iir_filter d Config.IirFilterCoeff.Coeff31 = d.BMP3_IIR_FILTER_COEFF_31 ∧
      map_iir_filter d Config.IirFilterCoeff.Coeff63 = d.BMP3_IIR_FILTER_COEFF_63 ∧
      map_iir_filter d Config.IirFilterCoeff.Coeff127 = d.BMP3_IIR_FILTER_COEFF_127) := by
  obtain ⟨⟨o1, o2, o3, o4, o5, o6⟩,
    ⟨r1, r2, r3, r4, r5, r6, r7, r8, r9, r10, r11, r12, r13, r14, r15⟩,
    ⟨f1, f2, f3, f4, f5, f6, f7, f8⟩⟩ := hd
  refine ⟨⟨?_, ?_, ?_, ?_, ?_, ?_⟩,
    ⟨?_, ?_, ?_, ?_, ?_, ?_, ?_, ?_, ?_, ?_, ?_, ?_, ?_, ?_, ?_⟩,
    ⟨?_, ?_, ?_, ?_, ?_, ?_, ?_, ?_⟩⟩
  all_goals
    simp [map_oversampling, map_odr, map_iir_filter, Config.Oversampling.X1,
      Config.Oversampling.X2, Config.Oversampling.X4, Config.Oversampling.X8,
      Config.Oversampling.X16, Config.Oversampling.X32, Config.OutputDataRate.Hz200,
      Config.OutputDataRate.Hz100, Config.OutputDataRate.Hz50, Config.OutputDataRate.Hz25,
      Config.OutputDataRate.Hz12_5, Config.OutputDataRate.Hz6_25,
      Config.OutputDataRate.Hz3_1, Config.OutputDataRate.Hz1_5,
      Config.OutputDataRate.Hz0_78, Config.OutputDataRate.Hz0_39,
      Config.OutputDataRate.Hz0_2, Config.OutputDataRate.Hz0_1,
      Config.OutputDataRate.Hz0_05, Config.OutputDataRate.Hz0_02,
      Config.OutputDataRate.Hz0_01, Config.IirFilterCoeff.Off,
      Config.IirFilterCoeff.Coeff1, Config.IirFilterCoeff.Coeff3,
      Config.IirFilterCoeff.Coeff7, Config.IirFilterCoeff.Coeff15,
      Config.IirFilterCoeff.Coeff31, Config.IirFilterCoeff.Coeff63,
      Config.IirFilterCoeff.Coeff127, static_cast_uint8_of_lt, *]

lemma shifted_defs_fit : shifted_defs.CodesFitUint8 := by
  simp [Bmp3Defs.CodesFitUint8, shifted_defs]

/-- Witness of C1 on the constants `shifted_defs`: first, middle and last entry of each
table. -/
theorem map_legal_values_witness :
    shifted_defs.CodesFitUint8 ∧
    (map_oversampling shifted_defs Config.Oversampling.X1 = 100 ∧
      map_oversampling shifted_defs Config.Oversampling.X32 = 105) ∧
    (map_odr shifted_defs Config.OutputDataRate.Hz200 = 110 ∧
      map_odr shifted_defs Config.OutputDataRate.Hz0_01 = 124) ∧
    (map_iir_filter shifted_defs Config.IirFilterCoeff.Off = 130 ∧
      map_iir_filter shifted_defs Config.IirFilterCoeff.Coeff127 = 137) :=
  ⟨shifted_defs_fit,
    ⟨(map_legal_values shifted_defs shifted_defs_fit).1.1,
      (map_legal_values shifted_defs shifted_defs_fit).1.2.2.2.2.2⟩,
    ⟨(map_legal_values shifted_defs shifted_defs_fit).2.1.1,
      (map_legal_values shifted_defs shifted_defs_fit).2.1.2.2.2.2.2.2.2.2.2.2.2.2.2.2⟩,
    ⟨(map_legal_values shifted_defs shifted_defs_fit).2.2.1,
      (map_legal_values shifted_defs shifted_defs_fit).2.2.2.2.2.2.2.2.2⟩⟩

/-- C2: an enumeration value outside the legal set is mapped to the default of its
table: `BMP3_OVERSAMPLING_4X` for an oversampling above 5, `BMP3_ODR_25_HZ` for a rate
above 14, `BMP3_IIR_FILTER_COEFF_3` for a filter coefficient above 7. -/
theorem map_out_of_range_values (d : Bmp3Defs) (hd : d.CodesFitUint8)
    (os odr coeff : Nat) (hos : 5 < os) (hodr : 14 < odr) (hcoeff : 7 < coeff) :
    map_oversampling d os = d.BMP3_OVERSAMPLING_4X ∧
    map_odr d odr = d.BMP3_ODR_25_HZ ∧
    map_iir_filter d coeff = d.BMP3_IIR_FILTER_COEFF_3 := by
  obtain ⟨⟨-, -, o3, -⟩, ⟨-, -, -, r4, -⟩, ⟨-, -, f3, -⟩⟩ := hd
  refine ⟨?_, ?_, ?_⟩
  · have h : ∀ k : Nat, k ≤ 5 → ¬ os = k := fun k hk => by omega
    unfold map_oversampling
    rw [if_neg (h Config.Oversampling.X1 (by decide)), if_neg (h Config.Oversampling.X2 (by decide)),
      if_neg (h Config.Oversampling.X4 (by decide)), if_neg (h Config.Oversampling.X8 (by decide)),
      if_neg (h Config.Oversampling.X16 (by decide)), if_neg (h Config.Oversampling.X32 (by decide))]
    exact static_cast_uint8_of_lt o3
  · have h : ∀ k : Nat, k ≤ 14 → ¬ odr = k := fun k hk => by omega
    unfold map_odr
    rw [if_neg (h Config.OutputDataRate.Hz200 (by decide)), if_neg (h Config.OutputDataRate.Hz100 (by decide)),
      if_neg (h Config.OutputDataRate.Hz50 (by decide)), if_neg (h Config.OutputDataRate.Hz25 (by decide)),
      if_neg (h Config.OutputDataRate.Hz12_5 (by decide)), if_neg (h Config.OutputDataRate.Hz6_25 (by decide)),
      if_neg (h Config.OutputDataRate.Hz3_1 (by decide)), if_neg (h Config.OutputDataRate.Hz1_5 (by decide)),
      if_neg (h Config.OutputDataRate.Hz0_78 (by decide)), if_neg (h Config.OutputDataRate.Hz0_39 (by decide)),
      if_neg (h Config.OutputDataRate.Hz0_2 (by decide)), if_neg (h Config.OutputDataRate.Hz0_1 (by decide)),
      if_neg (h Config.OutputDataRate.Hz0_05 (by decide)), if_neg (h Config.OutputDataRate.Hz0_02 (by decide)),
      if_neg (h Config.OutputDataRate.Hz0_01 (by decide))]
    exact static_cast_uint8_of_lt r4
  · have h : ∀ k : Nat, k ≤ 7 → ¬ coeff = k := fun k hk => by omega
    unfold map_iir_filter
    rw [if_neg (h Config.IirFilterCoeff.Off (by decide)), if_neg (h Config.IirFilterCoeff.Coeff1 (by decide)),
      if_neg (h Config.IirFilterCoeff.Coeff3 (by decide)), if_neg (h Config.IirFilterCoeff.Coeff7 (by decide)),
      if_neg (h Config.IirFilterCoeff.Coeff15 (by decide)), if_neg (h Config.IirFilterCoeff.Coeff31 (by decide)),
      if_neg (h Config.IirFilterCoeff.Coeff63 (by decide)), if_neg (h Config.IirFilterCoeff.Coeff127 (by decide))]
    exact static_cast_uint8_of_lt f3

/-- Witness of C2: the smallest illegal value of each enumeration and the largest
8-bit value, on the constants `shifted_defs`. -/
theorem map_out_of_range_values_witness :
    (shifted_defs.CodesFitUint8 ∧ 5 < 6 ∧ 14 < 15 ∧ 7 < 8 ∧ 5 < 255) ∧
    (map_oversampling shifted_defs 6 = 102 ∧ map_odr shifted_defs 15 = 113 ∧
      map_iir_filter shifted_defs 8 = 132) ∧
    (map_oversampling shifted_defs 255 = 102 ∧ map_odr shifted_defs 255 = 113 ∧
      map_iir_filter shifted_defs 255 = 132) :=
  ⟨⟨shifted_defs_fit, by decide, by decide, by decide, by decide⟩,
    map_out_of_range_values shifted_defs shifted_defs_fit 6 15 8
      (by decide) (by decide) (by decide),
    map_out_of_range_values shifted_defs shifted_defs_fit 255 255 255
      (by decide) (by decide) (by decide)⟩

/-! ## Bus transport adapter -/

/-- C3: with a length above 65535 both adapters return `-1` and leave the world as it
was, log of callback invocations included: no callback is invoked, whether the context
pointer is null, the callback unset, or the callback set (and whatever it would do). -/
theorem bus_adapters_reject_long_length {σ : Type} (reg_addr reg_data length : Nat)
    (intf_ptr : Option (BusInterface σ)) (w : World σ) (hlen : 65535 < length) :
    bmp3_bus_read reg_addr reg_data length intf_ptr w = (-1, w) ∧
    bmp3_bus_write reg_addr reg_data length intf_ptr w = (-1, w) ∧
    (bmp3_bus_read reg_addr reg_data length intf_ptr w).2.calls = w.calls ∧
    (bmp3_bus_write reg_addr reg_data length intf_ptr w).2.calls = w.calls := by
  have hr : bmp3_bus_read reg_addr reg_data length intf_ptr w = (-1, w) := by
    unfold bmp3_bus_read
    cases intf_ptr with
    | none => rfl
    | some bus =>
      cases hrd : bus.read with
      | none => simp [hrd]
      | some rd => simp [hrd, hlen]
  have hw : bmp3_bus_write reg_addr reg_data length intf_ptr w = (-1, w) := by
    unfold bmp3_bus_write
    cases intf_ptr with
    | none => rfl
    | some bus =>
      cases hwr : bus.write with
      | none => simp [hwr]
      | some wr => simp [hwr, hlen]
  exact ⟨hr, hw, by rw [hr], by rw [hw]⟩

/-- Witness of C3: length 65536 on a bus with every callback set. -/
theorem bus_adapters_reject_long_length_witness :
    65535 < 65536 ∧
    bmp3_bus_read 0x04 0 65536 (some sample_bus) sample_world = (-1, sample_world) ∧
    bmp3_bus_write 0x7E 0 65536 (some sample_bus) sample_world = (-1, sample_world) ∧
    (bmp3_bus_read 0x04 0 65536 (some sample_bus) sample_world).2.calls = [] ∧
    (bmp3_bus_write 0x7E 0 65536 (some sample_bus) sample_world).2.calls = [] :=
  ⟨by decide,
    bus_adapters_reject_long_length 0x04 0 65536 (some sample_bus) sample_world (by decide)
      |>.1,
    bus_adapters_reject_long_length 0x7E 0 65536 (some sample_bus) sample_world (by decide)
      |>.2.1,
    bus_adapters_reject_long_length 0x04 0 65536 (some sample_bus) sample_world (by decide)
      |>.2.2.1,
    bus_adapters_reject_long_length 0x7E 0 65536 (some sample_bus) sample_world (by decide)
      |>.2.2.2⟩

/-- C4: `bmp3_bus_read` on a bus whose `read` is unset, `bmp3_bus_write` on a bus whose
`write` is unset, and both adapters on a null context pointer return `-1` for every
register, buffer and length, and leave the world untouched. -/
theorem bus_adapters_fail_when_unset {σ : Type} (reg_addr reg_data length : Nat)
    (rbus wbus : BusInterface σ) (w : World σ)
    (hread : rbus.read = none) (hwrite : wbus.write = none) :
    bmp3_bus_read reg_addr reg_data length (some rbus) w = (-1, w) ∧
    bmp3_bus_write reg_addr reg_data length (some wbus) w = (-1, w) ∧
    bmp3_bus_read reg_addr reg_data length none w = (-1, w) ∧
    bmp3_bus_write reg_addr reg_data length none w = (-1, w) := by
  refine ⟨?_, ?_, rfl, rfl⟩
  · simp [bmp3_bus_read, hread]
  · simp [bmp3_bus_write, hwrite]

/-- Witness of C4: a short and an over-long transfer on buses with one callback
unset. -/
theorem bus_adapters_fail_when_unset_witness :
    (write_only_bus.read = none ∧ read_only_bus.write = none) ∧
    (bmp3_bus_read 0x04 0 6 (some write_only_bus) sample_world = (-1, sample_world) ∧
      bmp3_bus_write 0x04 0 6 (some read_only_bus) sample_world = (-1, sample_world)) ∧
    (bmp3_bus_read 0x04 0 70000 (some write_only_bus) sample_world = (-1, sample_world) ∧
      bmp3_bus_write 0x04 0 70000 (some read_only_bus) sample_world
        = (-1, sample_world)) :=
  ⟨⟨rfl, rfl⟩,
    ⟨(bus_adapters_fail_when_unset 0x04 0 6 write_only_bus read_only_bus sample_world
        rfl rfl).1,
      (bus_adapters_fail_when_unset 0x04 0 6 write_only_bus read_only_bus sample_world
        rfl rfl).2.1⟩,
    ⟨(bus_adapters_fail_when_unset 0x04 0 70000 write_only_bus read_only_bus sample_world
        rfl rfl).1,
      (bus_adapters_fail_when_unset 0x04 0 70000 write_only_bus read_only_bus sample_world
        rfl rfl).2.1⟩⟩

/-- C5: with a length of at most 65535 and the callback set, `bmp3_bus_read` (resp.
`bmp3_bus_write`) invokes the `read` (resp. `write`) callback once, with the register
address, the buffer and the length it was given (the narrowing to 16 bits keeps the
length), and returns the status of the callback, whatever it is. -/
theorem bus_adapters_forward {σ : Type} (reg_addr reg_data length : Nat)
    (rbus wbus : BusInterface σ) (rd wr : Nat → Nat → Nat → σ → Int × σ) (w : World σ)
    (hlen : length ≤ 65535) (hread : rbus.read = some rd) (hwrite : wbus.write = some wr) :
    static_cast_uint16 length = length ∧
    bmp3_bus_read reg_addr reg_data length (some rbus) w =
      ((rd reg_addr reg_data length w.app).1,
        { app := (rd reg_addr reg_data length w.app).2,
          calls := w.calls ++ [BusCall.read reg_addr reg_data length] }) ∧
    bmp3_bus_write reg_addr reg_data length (some wbus) w =
      ((wr reg_addr reg_data length w.app).1,
        { app := (wr reg_addr reg_data length w.app).2,
          calls := w.calls ++ [BusCall.write reg_addr reg_data length] }) := by
  have h16 := static_cast_uint16_of_le hlen
  have hnot : ¬ length > 0xFFFF := by omega
  refine ⟨h16, ?_, ?_⟩
  · simp only [bmp3_bus_read, hread, if_neg hnot, World.invoke_read, h16]
  · simp only [bmp3_bus_write, hwrite, if_neg hnot, World.invoke_write, h16]

/-- Witness of C5: the largest supported length; the read succeeds with status `0`, the
write to register `0x7E` fails with status `-5`, and both statuses come back. -/
theorem bus_adapters_forward_witness :
    (65535 ≤ 65535 ∧ sample_bus.read = some sample_read ∧
      sample_bus.write = some sample_write) ∧
    bmp3_bus_read 0x04 0 65535 (some sample_bus) sample_world =
      (0, { app := 65535, calls := [BusCall.read 0x04 0 65535] }) ∧
    bmp3_bus_write 0x7E 0 65535 (some sample_bus) sample_world =
      (-5, { app := 0, calls := [BusCall.write 0x7E 0 65535] }) :=
  ⟨⟨by decide, rfl, rfl⟩,
    (bus_adapters_forward 0x04 0 65535 sample_bus sample_bus sample_read sample_write
      sample_world (by decide) rfl rfl).2.1,
    (bus_adapters_forward 0x7E 0 65535 sample_bus sample_bus sample_read sample_write
      sample_world (by decide) rfl rfl).2.2⟩

/-- C6: `bmp3_delay_us` has no status to report.  With a null context pointer or an
unset `delay_us` it leaves the world as it was (no callback invoked); with `delay_us`
set it invokes that callback once with the same period; in every case the number of
`read` and `write` invocations in the log is unchanged. -/
theorem delay_adapter_best_effort {σ : Type} (period : Nat) (sbus ubus : BusInterface σ)
    (dl : Nat → σ → σ) (intf_ptr : Option (BusInterface σ)) (w : World σ)
    (hset : sbus.delay_us = some dl) (hunset : ubus.delay_us = none) :
    bmp3_delay_us period none w = w ∧
    bmp3_delay_us period (some ubus) w = w ∧
    bmp3_delay_us period (some sbus) w =
      { app := dl period w.app, calls := w.calls ++ [BusCall.delay_us period] } ∧
    transfer_count (bmp3_delay_us period intf_ptr w).calls = transfer_count w.calls := by
  refine ⟨rfl, ?_, ?_, ?_⟩
  · simp [bmp3_delay_us, hunset]
  · simp [bmp3_delay_us, hset, World.invoke_delay_us]
  · unfold bmp3_delay_us
    cases intf_ptr with
    | none => rfl
    | some bus =>
      cases hd : bus.delay_us with
      | none => simp [hd]
      | some f => simp [hd, World.invoke_delay_us, transfer_count_append, transfer_count]

/-- Witness of C6: a period of 2000 microseconds on the sample bus, on the bus with no
callback set, and after one `read` has been logged. -/
theorem delay_adapter_best_effort_witness :
    (sample_bus.delay_us = some sample_delay_us ∧ unset_bus.delay_us = none) ∧
    bmp3_delay_us 2000 (some unset_bus) sample_world = sample_world ∧
    bmp3_delay_us 2000 (some sample_bus) sample_world =
      { app := 0, calls := [BusCall.delay_us 2000] } ∧
    transfer_count (bmp3_delay_us 2000 (some sample_bus)
      { app := 6, calls := [BusCall.read 0x04 0 6] }).calls = 1 :=
  ⟨⟨rfl, rfl⟩,
    (delay_adapter_best_effort 2000 sample_bus unset_bus sample_delay_us none sample_world
      rfl rfl).2.1,
    (delay_adapter_best_effort 2000 sample_bus unset_bus sample_delay_us none sample_world
      rfl rfl).2.2.1,
    (delay_adapter_best_effort 2000 sample_bus unset_bus sample_delay_us
      (some sample_bus) { app := 6, calls := [BusCall.read 0x04 0 6] } rfl rfl).2.2.2⟩

/-! ## Sensor facade -/

lemma count_set_op_mode_append_settings {σ ρ P T : Type} (cs : List (VendorCall σ ρ P T))
    (sel : Nat) (st : bmp3_settings) (dev : bmp3_dev σ ρ) :
    count_set_op_mode (cs ++ [VendorCall.bmp3_set_sensor_settings sel st dev]) =
      count_set_op_mode cs := by
  induction cs with
  | nil => rfl
  | cons c cs ih => cases c <;> simp [count_set_op_mode, ih]

/-- C7: when the vendor settings-update call made by `configure` returns a nonzero
code `r`, `configure` returns `r`, and the only vendor call it has made is that
settings update: the mode switch is not called. -/
theorem configure_short_circuits {σ ρ P T : Type} (d : Bmp3Defs) (v : Vendor σ ρ P T)
    (self : Bmp390 σ ρ) (dev : bmp3_dev σ ρ) (config : Config) (s : Sys σ ρ P T)
    (r : Int) (st1 : bmp3_settings) (dev1 : bmp3_dev σ ρ) (w1 : World σ)
    (hv : v.ReturnsInt8) (hdev : self.dev_ = some dev)
    (hcall : v.bmp3_set_sensor_settings (Bmp390.configure_desired_settings d)
      (Bmp390.configure_settings d config) dev s.world = (r, st1, dev1, w1))
    (hr : r ≠ 0) :
    (Bmp390.configure d v self config s).1 = r ∧
    (Bmp390.configure d v self config s).2.2.vendor_calls =
      s.vendor_calls ++ [VendorCall.bmp3_set_sensor_settings
        (Bmp390.configure_desired_settings d) (Bmp390.configure_settings d config) dev] ∧
    count_set_op_mode (Bmp390.configure d v self config s).2.2.vendor_calls =
      count_set_op_mode s.vendor_calls := by
  have hrange := hv.2.1 (Bmp390.configure_desired_settings d)
    (Bmp390.configure_settings d config) dev s.world
  rw [hcall] at hrange
  have h8 : static_cast_int8 r = r := static_cast_int8_of_range hrange.1 hrange.2
  have h32 : static_cast_int r = r := static_cast_int_of_range hrange.1 hrange.2
  have hne : r ≠ BMP3_OK := hr
  have hout : Bmp390.configure d v self config s =
      (r, { self with dev_ := some dev1 },
        { world := w1, vendor_calls := s.vendor_calls ++
            [VendorCall.bmp3_set_sensor_settings (Bmp390.configure_desired_settings d)
              (Bmp390.configure_settings d config) dev] }) := by
    unfold Bmp390.configure
    rw [hdev]
    simp only [hcall, h8, h32, if_pos hne]
  rw [hout]
  exact ⟨rfl, rfl, count_set_op_mode_append_settings _ _ _ _⟩

/-- Witness of C7: the settings update fails with `-3`; `configure` returns `-3` and
the log holds the settings update alone. -/
theorem configure_short_circuits_witness :
    ((stub_vendor 0 (-3) 0 0 (0 : Rat) (0 : Rat)).ReturnsInt8 ∧
      sample_facade.dev_ = some (bmp3_dev.zero ()) ∧ (-3 : Int) ≠ 0) ∧
    (Bmp390.configure bosch_defs (stub_vendor 0 (-3) 0 0 (0 : Rat) (0 : Rat))
      sample_facade Config.default (sample_sys Rat Rat)).1 = -3 ∧
    (Bmp390.configure bosch_defs (stub_vendor 0 (-3) 0 0 (0 : Rat) (0 : Rat))
      sample_facade Config.default (sample_sys Rat Rat)).2.2.vendor_calls =
      [VendorCall.bmp3_set_sensor_settings
        (Bmp390.configure_desired_settings bosch_defs)
        (Bmp390.configure_settings bosch_defs Config.default) (bmp3_dev.zero ())] ∧
    count_set_op_mode (Bmp390.configure bosch_defs
      (stub_vendor 0 (-3) 0 0 (0 : Rat) (0 : Rat)) sample_facade Config.default
      (sample_sys Rat Rat)).2.2.vendor_calls = 0 :=
  ⟨⟨stub_vendor_returns_int8 _ _ _ _ _ _ (by decide) (by decide) (by decide) (by decide),
      rfl, by decide⟩,
    configure_short_circuits bosch_defs (stub_vendor 0 (-3) 0 0 (0 : Rat) (0 : Rat))
      sample_facade (bmp3_dev.zero ()) Config.default (sample_sys Rat Rat) (-3)
      (Bmp390.configure_settings bosch_defs Config.default) (bmp3_dev.zero ())
      sample_world
      (stub_vendor_returns_int8 _ _ _ _ _ _ (by decide) (by decide) (by decide)
        (by decide)) rfl rfl (by decide)⟩

/-- C8: `configure` makes one settings-update call.  Its settings record enables both
channels (`press_en = temp_en = BMP3_ENABLE`) and carries the four mapped values; its
selection mask is the bitwise or of the six selectors `BMP3_SEL_PRESS_EN`,
`BMP3_SEL_TEMP_EN`, `BMP3_SEL_PRESS_OS`, `BMP3_SEL_TEMP_OS`, `BMP3_SEL_ODR`,
`BMP3_SEL_IIR_FILTER`.  When that call returns `0`, `configure` calls the mode switch
once, on the same settings record with `op_mode = BMP3_MODE_NORMAL`, and returns the
result code of the mode switch; otherwise the settings update is its only call. -/
theorem configure_applies_settings {σ ρ P T : Type} (d : Bmp3Defs) (v : Vendor σ ρ P T)
    (self : Bmp390 σ ρ) (dev : bmp3_dev σ ρ) (config : Config) (s : Sys σ ρ P T)
    (r1 : Int) (st1 : bmp3_settings) (dev1 : bmp3_dev σ ρ) (w1 : World σ)
    (r2 : Int) (st2 : bmp3_settings) (dev2 : bmp3_dev σ ρ) (w2 : World σ)
    (hd : d.SelectorsFitUint32) (hv : v.ReturnsInt8) (hdev : self.dev_ = some dev)
    (hcall1 : v.bmp3_set_sensor_settings (Bmp390.configure_desired_settings d)
      (Bmp390.configure_settings d config) dev s.world = (r1, st1, dev1, w1))
    (hcall2 : v.bmp3_set_op_mode { st1 with op_mode := d.BMP3_MODE_NORMAL } dev1 w1 =
      (r2, st2, dev2, w2)) :
    Bmp390.configure_settings d config =
      { op_mode := 0
        press_en := d.BMP3_ENABLE
        temp_en := d.BMP3_ENABLE
        press_os := map_oversampling d config.pressure_oversampling
        temp_os := map_oversampling d config.temperature_oversampling
        odr := map_odr d config.odr
        iir_filter := map_iir_filter d config.iir_filter } ∧
    Bmp390.configure_desired_settings d =
      d.BMP3_SEL_PRESS_EN ||| d.BMP3_SEL_TEMP_EN ||| d.BMP3_SEL_PRESS_OS |||
        d.BMP3_SEL_TEMP_OS ||| d.BMP3_SEL_ODR ||| d.BMP3_SEL_IIR_FILTER ∧
    (r1 ≠ 0 →
      (Bmp390.configure d v self config s).2.2.vendor_calls =
        s.vendor_calls ++ [VendorCall.bmp3_set_sensor_settings
          (Bmp390.configure_desired_settings d) (Bmp390.configure_settings d config) dev]) ∧
    (r1 = 0 →
      Bmp390.configure d v self config s =
        (r2, { self with dev_ := some dev2 },
          { world := w2
            vendor_calls := s.vendor_calls ++
              [VendorCall.bmp3_set_sensor_settings (Bmp390.configure_desired_settings d)
                (Bmp390.configure_settings d config) dev,
               VendorCall.bmp3_set_op_mode
                { st1 with op_mode := d.BMP3_MODE_NORMAL } dev1] })) := by
  obtain ⟨s1, s2, s3, s4, s5, s6⟩ := hd
  have hr1 := hv.2.1 (Bmp390.configure_desired_settings d)
    (Bmp390.configure_settings d config) dev s.world
  rw [hcall1] at hr1
  have hr2 := hv.2.2.1 { st1 with op_mode := d.BMP3_MODE_NORMAL } dev1 w1
  rw [hcall2] at hr2
  have h8 : static_cast_int8 r1 = r1 := static_cast_int8_of_range hr1.1 hr1.2
  have h32 : static_cast_int r1 = r1 := static_cast_int_of_range hr1.1 hr1.2
  have k8 : static_cast_int8 r2 = r2 := static_cast_int8_of_range hr2.1 hr2.2
  have k32 : static_cast_int r2 = r2 := static_cast_int_of_range hr2.1 hr2.2
  refine ⟨rfl, ?_, ?_, ?_⟩
  · unfold Bmp390.configure_desired_settings
    simp only [Nat.zero_or]
    have m1 : static_cast_uint32 d.BMP3_SEL_PRESS_EN = d.BMP3_SEL_PRESS_EN := by
      unfold static_cast_uint32
      exact Nat.mod_eq_of_lt s1
    rw [m1, static_cast_uint32_or s1 s2,
      static_cast_uint32_or (Nat.or_lt_two_pow s1 s2) s3,
      static_cast_uint32_or (Nat.or_lt_two_pow (Nat.or_lt_two_pow s1 s2) s3) s4,
      static_cast_uint32_or
        (Nat.or_lt_two_pow (Nat.or_lt_two_pow (Nat.or_lt_two_pow s1 s2) s3) s4) s5,
      static_cast_uint32_or
        (Nat.or_lt_two_pow
          (Nat.or_lt_two_pow (Nat.or_lt_two_pow (Nat.or_lt_two_pow s1 s2) s3) s4) s5) s6]
  · intro hne
    have hne1 : r1 ≠ BMP3_OK := hne
    unfold Bmp390.configure
    rw [hdev]
    simp only [hcall1, h8, h32, if_pos hne1]
  · intro he
    have he1 : ¬ r1 ≠ BMP3_OK := fun h => h he
    unfold Bmp390.configure
    rw [hdev]
    simp only [hcall1, h8, if_neg he1, hcall2, k8, k32, ite_self, List.append_assoc,
      List.singleton_append]

/-- Witness of C8: default configuration on the constants `bosch_defs`, a vendor whose
settings update succeeds and whose mode switch returns `-4`. -/
theorem configure_applies_settings_witness :
    (bosch_defs.SelectorsFitUint32 ∧
      (stub_vendor 0 0 (-4) 0 (0 : Rat) (0 : Rat)).ReturnsInt8 ∧
      sample_facade.dev_ = some (bmp3_dev.zero ())) ∧
    Bmp390.configure_settings bosch_defs Config.default =
      { op_mode := 0, press_en := 1, temp_en := 1, press_os := 2, temp_os := 0, odr := 3,
        iir_filter := 2 } ∧
    Bmp390.configure_desired_settings bosch_defs = 2 ||| 4 ||| 16 ||| 32 ||| 128 ||| 64 ∧
    Bmp390.configure bosch_defs (stub_vendor 0 0 (-4) 0 (0 : Rat) (0 : Rat)) sample_facade
        Config.default (sample_sys Rat Rat) =
      (-4, sample_facade,
        { world := sample_world
          vendor_calls :=
            [VendorCall.bmp3_set_sensor_settings 246
              { op_mode := 0, press_en := 1, temp_en := 1, press_os := 2, temp_os := 0,
                odr := 3, iir_filter := 2 } (bmp3_dev.zero ()),
             VendorCall.bmp3_set_op_mode
              { op_mode := 3, press_en := 1, temp_en := 1, press_os := 2, temp_os := 0,
                odr := 3, iir_filter := 2 } (bmp3_dev.zero ())] }) :=
  ⟨⟨by simp [Bmp3Defs.SelectorsFitUint32, bosch_defs],
      stub_vendor_returns_int8 _ _ _ _ _ _ (by decide) (by decide) (by decide) (by decide),
      rfl⟩,
    (configure_applies_settings bosch_defs (stub_vendor 0 0 (-4) 0 (0 : Rat) (0 : Rat))
      sample_facade (bmp3_dev.zero ()) Config.default (sample_sys Rat Rat)
      0 (Bmp390.configure_settings bosch_defs Config.default) (bmp3_dev.zero ())
      sample_world
      (-4) { Bmp390.configure_settings bosch_defs Config.default with op_mode := 3 }
      (bmp3_dev.zero ()) sample_world
      (by simp [Bmp3Defs.SelectorsFitUint32, bosch_defs])
      (stub_vendor_returns_int8 _ _ _ _ _ _ (by decide) (by decide) (by decide)
        (by decide)) rfl rfl rfl).1,
    (configure_applies_settings bosch_defs (stub_vendor 0 0 (-4) 0 (0 : Rat) (0 : Rat))
      sample_facade (bmp3_dev.zero ()) Config.default (sample_sys Rat Rat)
      0 (Bmp390.configure_settings bosch_defs Config.default) (bmp3_dev.zero ())
      sample_world
      (-4) { Bmp390.configure_settings bosch_defs Config.default with op_mode := 3 }
      (bmp3_dev.zero ()) sample_world
      (by simp [Bmp3Defs.SelectorsFitUint32, bosch_defs])
      (stub_vendor_returns_int8 _ _ _ _ _ _ (by decide) (by decide) (by decide)
        (by decide)) rfl rfl rfl).2.1,
    (configure_applies_settings bosch_defs (stub_vendor 0 0 (-4) 0 (0 : Rat) (0 : Rat))
      sample_facade (bmp3_dev.zero ()) Config.default (sample_sys Rat Rat)
      0 (Bmp390.configure_settings bosch_defs Config.default) (bmp3_dev.zero ())
      sample_world
      (-4) { Bmp390.configure_settings bosch_defs Config.default with op_mode := 3 }
      (bmp3_dev.zero ()) sample_world
      (by simp [Bmp3Defs.SelectorsFitUint32, bosch_defs])
      (stub_vendor_returns_int8 _ _ _ _ _ _ (by decide) (by decide) (by decide)
        (by decide)) rfl rfl rfl).2.2.2 rfl⟩

/-- C10: `read_measurement` makes one vendor data-read call, for the combined sample
`BMP3_PRESS_TEMP`, on a value-initialised `bmp3_data`.  It returns the vendor's code
`r`.  When `r` is nonzero the caller's `Measurement` is left as it was.  When `r` is
`0` and the vendor delivered `(p, t)`, the `Measurement` holds `p` and `t` converted to
`double` and nothing else applied; in the floating-point build that conversion is the
identity, so the `Measurement` holds `p` and `t` themselves. -/
theorem read_measurement_forwards {σ ρ P T F : Type} (d : Bmp3Defs) (v : Vendor σ ρ P T)
    (k : Compensation P T F) (self : Bmp390 σ ρ) (dev : bmp3_dev σ ρ)
    (out : Measurement F) (s : Sys σ ρ P T)
    (r : Int) (p : P) (t : T) (dev1 : bmp3_dev σ ρ) (w1 : World σ)
    (hv : v.ReturnsInt8) (hdev : self.dev_ = some dev)
    (hcall : v.bmp3_get_sensor_data d.BMP3_PRESS_TEMP
      { pressure := k.zero_pressure, temperature := k.zero_temperature } dev s.world =
      (r, { pressure := p, temperature := t }, dev1, w1)) :
    (Bmp390.read_measurement d v k self out s).1 = r ∧
    (Bmp390.read_measurement d v k self out s).2.2.2.vendor_calls =
      s.vendor_calls ++ [VendorCall.bmp3_get_sensor_data d.BMP3_PRESS_TEMP
        { pressure := k.zero_pressure, temperature := k.zero_temperature } dev] ∧
    (r ≠ 0 → (Bmp390.read_measurement d v k self out s).2.2.1 = out) ∧
    (r = 0 → (Bmp390.read_measurement d v k self out s).2.2.1 =
      { pressure_pa := k.pressure_to_double p
        temperature_c := k.temperature_to_double t }) ∧
    (∀ (zero x : F), (float_compensation F zero).pressure_to_double x = x ∧
      (float_compensation F zero).temperature_to_double x = x) := by
  have hr := hv.2.2.2 d.BMP3_PRESS_TEMP
    { pressure := k.zero_pressure, temperature := k.zero_temperature } dev s.world
  rw [hcall] at hr
  have h8 : static_cast_int8 r = r := static_cast_int8_of_range hr.1 hr.2
  have h32 : static_cast_int r = r := static_cast_int_of_range hr.1 hr.2
  by_cases h0 : r ≠ BMP3_OK
  · have hout : Bmp390.read_measurement d v k self out s =
        (r, { self with dev_ := some dev1 }, out,
          { world := w1, vendor_calls := s.vendor_calls ++
              [VendorCall.bmp3_get_sensor_data d.BMP3_PRESS_TEMP
                { pressure := k.zero_pressure, temperature := k.zero_temperature }
                dev] }) := by
      unfold Bmp390.read_measurement
      rw [hdev]
      simp only [hcall, h8, h32, if_pos h0]
    rw [hout]
    exact ⟨rfl, rfl, fun _ => rfl, fun h => absurd h h0, fun _ _ => ⟨rfl, rfl⟩⟩
  · have hout : Bmp390.read_measurement d v k self out s =
        (r, { self with dev_ := some dev1 },
          { pressure_pa := k.pressure_to_double p
            temperature_c := k.temperature_to_double t },
          { world := w1, vendor_calls := s.vendor_calls ++
              [VendorCall.bmp3_get_sensor_data d.BMP3_PRESS_TEMP
                { pressure := k.zero_pressure, temperature := k.zero_temperature }
                dev] }) := by
      unfold Bmp390.read_measurement
      rw [hdev]
      simp only [hcall, h8, h32, if_neg h0]
    rw [hout]
    exact ⟨rfl, rfl, fun h => absurd h h0, fun _ => rfl, fun _ _ => ⟨rfl, rfl⟩⟩

/-- Witness of C10 in the floating-point build: a vendor that delivers `101325` Pa
and `21.5` degrees with code `0`, and a vendor that fails with `-2`; the caller's
`Measurement` starts as `(7, 9)`. -/
theorem read_measurement_forwards_witness :
    ((stub_vendor 0 0 0 0 (101325 : Rat) (43 / 2 : Rat)).ReturnsInt8 ∧
      (stub_vendor 0 0 0 (-2) (101325 : Rat) (43 / 2 : Rat)).ReturnsInt8 ∧
      sample_facade.dev_ = some (bmp3_dev.zero ())) ∧
    ((Bmp390.read_measurement bosch_defs (stub_vendor 0 0 0 0 (101325 : Rat) (43 / 2 : Rat))
        (float_compensation Rat 0) sample_facade { pressure_pa := 7, temperature_c := 9 }
        (sample_sys Rat Rat)).1 = 0 ∧
      (Bmp390.read_measurement bosch_defs
        (stub_vendor 0 0 0 0 (101325 : Rat) (43 / 2 : Rat))
        (float_compensation Rat 0) sample_facade { pressure_pa := 7, temperature_c := 9 }
        (sample_sys Rat Rat)).2.2.1 = { pressure_pa := 101325, temperature_c := 43 / 2 }) ∧
    ((Bmp390.read_measurement bosch_defs
        (stub_vendor 0 0 0 (-2) (101325 : Rat) (43 / 2 : Rat))
        (float_compensation Rat 0) sample_facade { pressure_pa := 7, temperature_c := 9 }
        (sample_sys Rat Rat)).1 = -2 ∧
      (Bmp390.read_measurement bosch_defs
        (stub_vendor 0 0 0 (-2) (101325 : Rat) (43 / 2 : Rat))
        (float_compensation Rat 0) sample_facade { pressure_pa := 7, temperature_c := 9 }
        (sample_sys Rat Rat)).2.2.1 = { pressure_pa := 7, temperature_c := 9 }) :=
  ⟨⟨stub_vendor_returns_int8 _ _ _ _ _ _ (by decide) (by decide) (by decide) (by decide),
      stub_vendor_returns_int8 _ _ _ _ _ _ (by decide) (by decide) (by decide) (by decide),
      rfl⟩,
    ⟨(read_measurement_forwards bosch_defs
        (stub_vendor 0 0 0 0 (101325 : Rat) (43 / 2 : Rat)) (float_compensation Rat 0)
        sample_facade (bmp3_dev.zero ()) { pressure_pa := 7, temperature_c := 9 }
        (sample_sys Rat Rat) 0 101325 (43 / 2) (bmp3_dev.zero ()) sample_world
        (stub_vendor_returns_int8 _ _ _ _ _ _ (by decide) (by decide) (by decide)
          (by decide)) rfl rfl).1,
      (read_measurement_forwards bosch_defs
        (stub_vendor 0 0 0 0 (101325 : Rat) (43 / 2 : Rat)) (float_compensation Rat 0)
        sample_facade (bmp3_dev.zero ()) { pressure_pa := 7, temperature_c := 9 }
        (sample_sys Rat Rat) 0 101325 (43 / 2) (bmp3_dev.zero ()) sample_world
        (stub_vendor_returns_int8 _ _ _ _ _ _ (by decide) (by decide) (by decide)
          (by decide)) rfl rfl).2.2.2.1 rfl⟩,
    ⟨(read_measurement_forwards bosch_defs
        (stub_vendor 0 0 0 (-2) (101325 : Rat) (43 / 2 : Rat)) (float_compensation Rat 0)
        sample_facade (bmp3_dev.zero ()) { pressure_pa := 7, temperature_c := 9 }
        (sample_sys Rat Rat) (-2) 101325 (43 / 2) (bmp3_dev.zero ()) sample_world
        (stub_vendor_returns_int8 _ _ _ _ _ _ (by decide) (by decide) (by decide)
          (by decide)) rfl rfl).1,
      (read_measurement_forwards bosch_defs
        (stub_vendor 0 0 0 (-2) (101325 : Rat) (43 / 2 : Rat)) (float_compensation Rat 0)
        sample_facade (bmp3_dev.zero ()) { pressure_pa := 7, temperature_c := 9 }
        (sample_sys Rat Rat) (-2) 101325 (43 / 2) (bmp3_dev.zero ()) sample_world
        (stub_vendor_returns_int8 _ _ _ _ _ _ (by decide) (by decide) (by decide)
          (by decide)) rfl rfl).2.2.1 (by decide)⟩⟩

end bmp390

/-! ## Multi-sensor example -/

namespace multisensor_example

open bmp390

lemma static_cast_int_of_int_range {r : Int} (hlo : -2 ^ 31 ≤ r) (hhi : r < 2 ^ 31) :
    static_cast_int r = r := by
  unfold static_cast_int wrap_signed
  norm_num at hlo hhi ⊢
  omega

lemma record_nan {F : Type} (ops : DoubleOps F) (loc : Locals F) (t : F)
    (ht : ops.isnan t = true) : mainLoop.record ops loc t = loc := by
  simp [mainLoop.record, ht]

lemma record_sum_temp {F : Type} (ops : DoubleOps F) (loc : Locals F) (t : F)
    (ht : ops.isnan t = false) :
    (mainLoop.record ops loc t).sum_temp = ops.add loc.sum_temp t := by
  simp only [mainLoop.record, ht, if_true]
  split_ifs <;> rfl

lemma record_count_temp {F : Type} (ops : DoubleOps F) (loc : Locals F) (t : F)
    (ht : ops.isnan t = false) :
    (mainLoop.record ops loc t).count_temp = static_cast_int (loc.count_temp + 1) := by
  simp only [mainLoop.record, ht, if_true]
  split_ifs <;> rfl

lemma record_max_temp_seen {F : Type} (ops : DoubleOps F) (loc : Locals F) (t : F)
    (ht : ops.isnan t = false) :
    (mainLoop.record ops loc t).max_temp_seen =
      if ops.gt t loc.max_temp_seen = true then t else loc.max_temp_seen := by
  simp only [mainLoop.record, ht, if_true]
  split_ifs <;> rfl

lemma record_alarm {F : Type} (ops : DoubleOps F) (loc : Locals F) (t : F)
    (ht : ops.isnan t = false) :
    (mainLoop.record ops loc t).alarm =
      if ops.gt t (alarm_threshold ops) = true then true else loc.alarm := by
  simp only [mainLoop.record, ht, if_true]
  split_ifs <;> rfl

/-- The locals after the `for` loop are the readings of the pass recorded one after
the other. -/
lemma foldl_body_locals {F S W L : Type} (ops : DoubleOps F) (vt : ISensor F S W L)
    (sensors : List S) (st : LoopState F S W L) :
    (sensors.foldl (mainLoop.body ops vt) st).locals =
      (readings vt sensors st.world).foldl (mainLoop.record ops) st.locals := by
  induction sensors generalizing st with
  | nil => rfl
  | cons sensor rest ih =>
    simp only [List.foldl_cons, readings]
    rw [ih]
    rfl

/-- The `for` loop prints lines logged by sensors and nothing else. -/
lemma foldl_body_cout {F S W L : Type} (ops : DoubleOps F) (vt : ISensor F S W L)
    (sensors : List S) (st : LoopState F S W L) (o : Printed F L)
    (ho : o ∈ (sensors.foldl (mainLoop.body ops vt) st).cout) :
    o ∈ st.cout ∨ ∃ line, o = Printed.sensor_log line := by
  induction sensors generalizing st with
  | nil => exact Or.inl ho
  | cons sensor rest ih =>
    rw [List.foldl_cons] at ho
    rcases ih _ ho with h | h
    · simp only [mainLoop.body, List.mem_append, List.mem_singleton] at h
      rcases h with h | h
      · exact Or.inl h
      · exact Or.inr ⟨_, h⟩
    · exact Or.inr h

lemma poll_locals {F S W L : Type} (ops : DoubleOps F) (vt : ISensor F S W L)
    (sensors : List S) (w : W) :
    (mainLoop.poll ops vt sensors w).locals =
      (readings vt sensors w).foldl (mainLoop.record ops)
        { sum_temp := ops.lit_0_0, count_temp := 0, max_temp_seen := ops.lit_minus_1e9,
          alarm := false } :=
  foldl_body_locals ops vt sensors (mainLoop.init ops w)

lemma poll_cout {F S W L : Type} (ops : DoubleOps F) (vt : ISensor F S W L)
    (sensors : List S) (w : W) (o : Printed F L)
    (ho : o ∈ (mainLoop.poll ops vt sensors w).cout) : ∃ line, o = Printed.sensor_log line := by
  rcases foldl_body_cout ops vt sensors (mainLoop.init ops w) o ho with h | h
  · simp [mainLoop.init] at h
  · exact h

lemma mainLoop_locals {F S W L : Type} (ops : DoubleOps F) (vt : ISensor F S W L)
    (sensors : List S) (w : W) :
    (mainLoop ops vt sensors w).locals = (mainLoop.poll ops vt sensors w).locals := by
  unfold mainLoop
  simp only
  split_ifs <;> rfl

lemma mainLoop_cout {F S W L : Type} (ops : DoubleOps F) (vt : ISensor F S W L)
    (sensors : List S) (w : W) :
    (mainLoop ops vt sensors w).cout =
      (mainLoop.poll ops vt sensors w).cout ++
        [if (mainLoop.poll ops vt sensors w).locals.count_temp > 0 then
          Printed.mean (ops.div (mainLoop.poll ops vt sensors w).locals.sum_temp
            (ops.of_int (mainLoop.poll ops vt sensors w).locals.count_temp))
         else Printed.no_temperature] ++
        (if (mainLoop.poll ops vt sensors w).locals.alarm = true then
          [Printed.alarm (mainLoop.poll ops vt sensors w).locals.max_temp_seen]
         else []) := by
  unfold mainLoop raiseAlarm
  simp only
  split_ifs <;> simp

lemma foldl_record_sum_temp {F : Type} (ops : DoubleOps F) (ts : List F) (loc : Locals F) :
    (ts.foldl (mainLoop.record ops) loc).sum_temp =
      (ts.filter (fun t => !ops.isnan t)).foldl ops.add loc.sum_temp := by
  induction ts generalizing loc with
  | nil => rfl
  | cons t rest ih =>
    rw [List.foldl_cons, ih]
    cases ht : ops.isnan t with
    | true => rw [record_nan ops loc t ht]; simp [List.filter, ht]
    | false => rw [record_sum_temp ops loc t ht]; simp [List.filter, ht]

lemma foldl_record_count_temp {F : Type} (ops : DoubleOps F) (ts : List F) (loc : Locals F)
    (h0 : 0 ≤ loc.count_temp)
    (hfit : loc.count_temp + ((ts.filter (fun t => !ops.isnan t)).length : Int) < 2 ^ 31) :
    (ts.foldl (mainLoop.record ops) loc).count_temp =
      loc.count_temp + ((ts.filter (fun t => !ops.isnan t)).length : Int) := by
  induction ts generalizing loc with
  | nil => simp
  | cons t rest ih =>
    rw [List.foldl_cons]
    cases ht : ops.isnan t with
    | true =>
      have hf : (t :: rest).filter (fun t => !ops.isnan t) =
          rest.filter (fun t => !ops.isnan t) := by simp [List.filter, ht]
      rw [hf] at hfit ⊢
      rw [record_nan ops loc t ht]
      exact ih loc h0 hfit
    | false =>
      have hf : (t :: rest).filter (fun t => !ops.isnan t) =
          t :: rest.filter (fun t => !ops.isnan t) := by simp [List.filter, ht]
      rw [hf] at hfit ⊢
      simp only [List.length_cons, Nat.cast_add, Nat.cast_one] at hfit ⊢
      have hstep : (mainLoop.record ops loc t).count_temp = loc.count_temp + 1 := by
        rw [record_count_temp ops loc t ht]
        apply static_cast_int_of_int_range
        · norm_num; omega
        · omega
      rw [ih (mainLoop.record ops loc t) (by rw [hstep]; omega) (by rw [hstep]; omega),
        hstep]
      omega

lemma foldl_record_alarm {F : Type} (ops : DoubleOps F) (ts : List F) (loc : Locals F) :
    (ts.foldl (mainLoop.record ops) loc).alarm = true ↔
      loc.alarm = true ∨
        ∃ t ∈ ts.filter (fun t => !ops.isnan t), ops.gt t (alarm_threshold ops) = true := by
  induction ts generalizing loc with
  | nil => simp
  | cons t rest ih =>
    rw [List.foldl_cons, ih]
    cases ht : ops.isnan t with
    | true =>
      rw [record_nan ops loc t ht]
      simp [List.filter, ht]
    | false =>
      rw [record_alarm ops loc t ht]
      have hf : (t :: rest).filter (fun t => !ops.isnan t) =
          t :: rest.filter (fun t => !ops.isnan t) := by simp [List.filter, ht]
      rw [hf]
      by_cases hg : ops.gt t (alarm_threshold ops) = true
      · simp [hg]
      · simp only [if_neg hg, List.mem_cons, exists_eq_or_imp]
        simp [hg]

/-- The invariant of the running maximum: no valid reading seen so far is greater than
it, and it either still has its initial value or is one of the valid readings seen so
far. -/
lemma foldl_record_max_temp_seen {F : Type} (ops : DoubleOps F)
    (hirrefl : ∀ a, ops.gt a a = false)
    (htrans : ∀ a b c, ops.gt a b = true → ops.gt b c = true → ops.gt a c = true)
    (ts seen : List F) (loc : Locals F)
    (hub : ∀ u ∈ seen, ops.gt u loc.max_temp_seen = false)
    (hmem : loc.max_temp_seen = ops.lit_minus_1e9 ∨ loc.max_temp_seen ∈ seen) :
    (∀ u ∈ seen ++ ts.filter (fun t => !ops.isnan t),
      ops.gt u (ts.foldl (mainLoop.record ops) loc).max_temp_seen = false) ∧
    ((ts.foldl (mainLoop.record ops) loc).max_temp_seen = ops.lit_minus_1e9 ∨
      (ts.foldl (mainLoop.record ops) loc).max_temp_seen ∈
        seen ++ ts.filter (fun t => !ops.isnan t)) := by
  induction ts generalizing loc seen with
  | nil => simpa using ⟨hub, hmem⟩
  | cons t rest ih =>
    rw [List.foldl_cons]
    cases ht : ops.isnan t with
    | true =>
      have hf : (t :: rest).filter (fun t => !ops.isnan t) =
          rest.filter (fun t => !ops.isnan t) := by simp [List.filter, ht]
      rw [hf, record_nan ops loc t ht]
      exact ih seen loc hub hmem
    | false =>
      have hf : (t :: rest).filter (fun t => !ops.isnan t) =
          t :: rest.filter (fun t => !ops.isnan t) := by simp [List.filter, ht]
      have happ : seen ++ t :: rest.filter (fun t => !ops.isnan t) =
          (seen ++ [t]) ++ rest.filter (fun t => !ops.isnan t) := by simp
      rw [hf, happ]
      apply ih (seen ++ [t]) (mainLoop.record ops loc t)
      · intro u hu
        rw [record_max_temp_seen ops loc t ht]
        rw [List.mem_append, List.mem_singleton] at hu
        by_cases hg : ops.gt t loc.max_temp_seen = true
        · rw [if_pos hg]
          rcases hu with hu | hu
          · cases hut : ops.gt u t with
            | false => rfl
            | true =>
              have := htrans u t loc.max_temp_seen hut hg
              rw [hub u hu] at this
              exact absurd this (by decide)
          · rw [hu]; exact hirrefl t
        · rw [if_neg hg]
          rcases hu with hu | hu
          · exact hub u hu
          · rw [hu]; simpa using hg
      · rw [record_max_temp_seen ops loc t ht]
        by_cases hg : ops.gt t loc.max_temp_seen = true
        · rw [if_pos hg]
          exact Or.inr (by simp)
        · rw [if_neg hg]
          rcases hmem with h | h
          · exact Or.inl h
          · exact Or.inr (List.mem_append_left _ h)

lemma rational_double_laws : rational_double.ComparisonLaws := by
  refine ⟨?_, ?_, ?_, rfl, by decide⟩
  · intro a
    cases a <;> simp [rational_double]
  · intro a b c hab hbc
    cases a <;> cases b <;> cases c <;> simp_all [rational_double]
    exact lt_trans hbc hab
  · intro a b c _ _ _ hab hbc
    cases a <;> cases b <;> cases c <;> simp_all [rational_double]
    exact le_trans hab hbc

lemma mem_valid_readings_not_nan {F S W L : Type} (ops : DoubleOps F) (vt : ISensor F S W L)
    (sensors : List S) (w : W) (t : F) (ht : t ∈ valid_readings ops vt sensors w) :
    ops.isnan t = false := by
  unfold valid_readings at ht
  simpa using (List.mem_filter.mp ht).2

/-- The running maximum at the end of a pass: no valid reading is greater, and it is
the initial value `-1e9` or one of the valid readings. -/
lemma mainLoop_max_temp_seen {F S W L : Type} (ops : DoubleOps F) (vt : ISensor F S W L)
    (sensors : List S) (w : W) (hlaws : ops.ComparisonLaws) :
    (∀ u ∈ valid_readings ops vt sensors w,
      ops.gt u (mainLoop ops vt sensors w).locals.max_temp_seen = false) ∧
    ((mainLoop ops vt sensors w).locals.max_temp_seen = ops.lit_minus_1e9 ∨
      (mainLoop ops vt sensors w).locals.max_temp_seen ∈ valid_readings ops vt sensors w) := by
  have h := foldl_record_max_temp_seen ops hlaws.1 hlaws.2.1 (readings vt sensors w) []
    { sum_temp := ops.lit_0_0, count_temp := 0, max_temp_seen := ops.lit_minus_1e9,
      alarm := false } (by simp) (Or.inl rfl)
  rw [mainLoop_locals, poll_locals]
  simpa [valid_readings] using h

/-- C11: in one pass of `mainLoop`, the sum and the count at the end are the sum (from
`0.0`, in list order) and the number of the valid readings, NaN readings adding to
neither.  When there is a valid reading the mean printed is that sum divided by that
number; when there is none, no mean is printed (nothing is divided) and the line "no
temperature available" is. -/
theorem mean_over_valid_readings {F S W L : Type} (ops : DoubleOps F)
    (vt : ISensor F S W L) (sensors : List S) (w : W)
    (hfit : (valid_readings ops vt sensors w).length < 2 ^ 31) :
    (mainLoop ops vt sensors w).locals.sum_temp =
      (valid_readings ops vt sensors w).foldl ops.add ops.lit_0_0 ∧
    (mainLoop ops vt sensors w).locals.count_temp =
      ((valid_readings ops vt sensors w).length : Int) ∧
    (valid_readings ops vt sensors w ≠ [] →
      ∀ x, Printed.mean x ∈ (mainLoop ops vt sensors w).cout ↔
        x = ops.div ((valid_readings ops vt sensors w).foldl ops.add ops.lit_0_0)
          (ops.of_int ((valid_readings ops vt sensors w).length : Int))) ∧
    (valid_readings ops vt sensors w = [] →
      Printed.no_temperature ∈ (mainLoop ops vt sensors w).cout ∧
      ∀ x, Printed.mean x ∉ (mainLoop ops vt sensors w).cout) := by
  have hsum : (mainLoop.poll ops vt sensors w).locals.sum_temp =
      (valid_readings ops vt sensors w).foldl ops.add ops.lit_0_0 := by
    rw [poll_locals, foldl_record_sum_temp]
    rfl
  have hcount : (mainLoop.poll ops vt sensors w).locals.count_temp =
      ((valid_readings ops vt sensors w).length : Int) := by
    rw [poll_locals, foldl_record_count_temp ops _ _ (le_refl _)]
    · simp [valid_readings]
    · simp only [zero_add]
      unfold valid_readings at hfit
      exact_mod_cast hfit
  have hlog : ∀ x, Printed.mean x ∉ (mainLoop.poll ops vt sensors w).cout := by
    intro x hx
    obtain ⟨line, hl⟩ := poll_cout ops vt sensors w _ hx
    cases hl
  refine ⟨by rw [mainLoop_locals, hsum], by rw [mainLoop_locals, hcount], ?_, ?_⟩
  · intro hne x
    have hpos : (mainLoop.poll ops vt sensors w).locals.count_temp > 0 := by
      rw [hcount]
      exact_mod_cast List.length_pos.mpr hne
    rw [mainLoop_cout, if_pos hpos, hsum, hcount]
    constructor
    · intro hx
      simp only [List.mem_append, List.mem_singleton] at hx
      rcases hx with (hx | hx) | hx
      · exact absurd hx (hlog x)
      · exact Printed.mean.inj hx
      · split_ifs at hx <;> simp at hx
    · intro hx
      rw [hx]
      simp
  · intro hnil
    have hzero : ¬ (mainLoop.poll ops vt sensors w).locals.count_temp > 0 := by
      rw [hcount, hnil]
      simp
    rw [mainLoop_cout, if_neg hzero]
    refine ⟨by simp, ?_⟩
    intro x hx
    simp only [List.mem_append, List.mem_singleton] at hx
    rcases hx with (hx | hx) | hx
    · exact absurd hx (hlog x)
    · cases hx
    · split_ifs at hx <;> simp at hx

/-- Witness of C11: three sensors reading `20.0`, NaN and `35.0`; the sum is `55`, the
count `2` and the mean printed `27.5`. -/
theorem mean_over_valid_readings_witness :
    (valid_readings rational_double queue_sensor [none, none, none]
      [some 20, none, some 35]).length < 2 ^ 31 ∧
    valid_readings rational_double queue_sensor [none, none, none]
      [some 20, none, some 35] = [some 20, some 35] ∧
    (mainLoop rational_double queue_sensor [none, none, none]
      [some 20, none, some 35]).locals.count_temp = 2 ∧
    Printed.mean (some (55 / 2)) ∈
      (mainLoop rational_double queue_sensor [none, none, none]
        [some 20, none, some 35]).cout :=
  ⟨by decide, by decide,
    (mean_over_valid_readings rational_double queue_sensor [none, none, none]
      [some 20, none, some 35] (by decide)).2.1,
    ((mean_over_valid_readings rational_double queue_sensor [none, none, none]
      [some 20, none, some 35] (by decide)).2.2.1 (by decide) (some (55 / 2))).mpr
      (by
        have hv : valid_readings rational_double queue_sensor [none, none, none]
            [some 20, none, some 35] = [some 20, some 35] := by decide
        rw [hv]
        simp only [rational_double, List.foldl_cons, List.foldl_nil, List.length_cons,
          List.length_nil]
        norm_num)⟩

/-- C12, as stated, fails: one sensor reading `-2e9`.  The reading is valid, the
maximum of the valid readings is `-2e9`, and `max_temp_seen` ends at its initial
value `-1e9`, which is greater. -/
theorem max_temp_seen_counterexample :
    valid_readings rational_double queue_sensor [none] [some (-2000000000)] =
      [some (-2000000000)] ∧
    (mainLoop rational_double queue_sensor [none]
      [some (-2000000000)]).locals.max_temp_seen = some (-1000000000) ∧
    ¬ is_maximum_of rational_double
      (mainLoop rational_double queue_sensor [none]
        [some (-2000000000)]).locals.max_temp_seen
      (valid_readings rational_double queue_sensor [none] [some (-2000000000)]) := by
  have hv : valid_readings rational_double queue_sensor [none] [some (-2000000000)] =
      [some (-2000000000)] := by decide
  have hm : (mainLoop rational_double queue_sensor [none]
      [some (-2000000000)]).locals.max_temp_seen = some (-1000000000) := by decide
  refine ⟨hv, hm, ?_⟩
  rw [hv, hm]
  rintro ⟨⟨t, ht, -, hlt⟩, -⟩
  rw [List.mem_singleton] at ht
  rw [ht] at hlt
  revert hlt
  decide

/-- C12, amended: when some valid reading is not below `-1e9`, the value
`max_temp_seen` starts from, then at the end of the pass `max_temp_seen` is the maximum
of the valid readings: it compares equal to one of them and none of them is greater.
When some valid reading is above `-1e9`, it is itself one of the valid readings. -/
theorem max_over_valid_readings {F S W L : Type} (ops : DoubleOps F)
    (vt : ISensor F S W L) (sensors : List S) (w : W) (hlaws : ops.ComparisonLaws)
    (hreach : ∃ t ∈ valid_readings ops vt sensors w, ops.gt ops.lit_minus_1e9 t = false) :
    is_maximum_of ops (mainLoop ops vt sensors w).locals.max_temp_seen
      (valid_readings ops vt sensors w) ∧
    ((∃ t ∈ valid_readings ops vt sensors w, ops.gt t ops.lit_minus_1e9 = true) →
      (mainLoop ops vt sensors w).locals.max_temp_seen ∈
        valid_readings ops vt sensors w) := by
  obtain ⟨hub, hmem⟩ := mainLoop_max_temp_seen ops vt sensors w hlaws
  refine ⟨⟨?_, hub⟩, ?_⟩
  · rcases hmem with hm | hm
    · obtain ⟨t, ht, hge⟩ := hreach
      refine ⟨t, ht, hub t ht, ?_⟩
      rw [hm]
      exact hge
    · exact ⟨_, hm, hlaws.1 _, hlaws.1 _⟩
  · rintro ⟨t, ht, hgt⟩
    rcases hmem with hm | hm
    · have h := hub t ht
      rw [hm, hgt] at h
      exact absurd h (by decide)
    · exact hm

/-- Witness of C12 (amended): readings `20.0`, NaN and `35.0` give the maximum
`35.0`. -/
theorem max_over_valid_readings_witness :
    (rational_double.ComparisonLaws ∧
      ∃ t ∈ valid_readings rational_double queue_sensor [none, none, none]
        [some 20, none, some 35], rational_double.gt rational_double.lit_minus_1e9 t = false) ∧
    (mainLoop rational_double queue_sensor [none, none, none]
      [some 20, none, some 35]).locals.max_temp_seen = some 35 ∧
    is_maximum_of rational_double
      (mainLoop rational_double queue_sensor [none, none, none]
        [some 20, none, some 35]).locals.max_temp_seen
      (valid_readings rational_double queue_sensor [none, none, none]
        [some 20, none, some 35]) :=
  ⟨⟨rational_double_laws, ⟨some 20, by decide, by decide⟩⟩, by decide,
    (max_over_valid_readings rational_double queue_sensor [none, none, none]
      [some 20, none, some 35] rational_double_laws
      ⟨some 20, by decide, by decide⟩).1⟩

/-- C13: in one pass of `mainLoop` the alarm line is printed exactly when some valid
reading is greater than the threshold `30.0`.  A NaN reading is not a valid reading,
and `30.0` is not greater than the threshold.  The value printed by `raiseAlarm` is
`max_temp_seen`, which is then one of the valid readings, with no valid reading
greater, and is itself greater than the threshold. -/
theorem alarm_iff_valid_above_threshold {F S W L : Type} (ops : DoubleOps F)
    (vt : ISensor F S W L) (sensors : List S) (w : W) (hlaws : ops.ComparisonLaws) :
    ((∃ x, Printed.alarm x ∈ (mainLoop ops vt sensors w).cout) ↔
      ∃ t ∈ valid_readings ops vt sensors w, ops.gt t (alarm_threshold ops) = true) ∧
    ((mainLoop ops vt sensors w).locals.alarm = true ↔
      ∃ t ∈ valid_readings ops vt sensors w, ops.gt t (alarm_threshold ops) = true) ∧
    (∀ x, Printed.alarm x ∈ (mainLoop ops vt sensors w).cout →
      x = (mainLoop ops vt sensors w).locals.max_temp_seen ∧
      x ∈ valid_readings ops vt sensors w ∧
      (∀ u ∈ valid_readings ops vt sensors w, ops.gt u x = false) ∧
      ops.gt x (alarm_threshold ops) = true) ∧
    (∀ t ∈ valid_readings ops vt sensors w, ops.isnan t = false) ∧
    ops.gt (alarm_threshold ops) (alarm_threshold ops) = false := by
  obtain ⟨hirrefl, htrans, hneg, hthr, hseed⟩ := hlaws
  have hlaws : ops.ComparisonLaws := ⟨hirrefl, htrans, hneg, hthr, hseed⟩
  have halarm : (mainLoop.poll ops vt sensors w).locals.alarm = true ↔
      ∃ t ∈ valid_readings ops vt sensors w, ops.gt t (alarm_threshold ops) = true := by
    rw [poll_locals, foldl_record_alarm]
    simp [valid_readings]
  have hout : ∀ x, Printed.alarm x ∈ (mainLoop ops vt sensors w).cout ↔
      ((mainLoop.poll ops vt sensors w).locals.alarm = true ∧
        x = (mainLoop.poll ops vt sensors w).locals.max_temp_seen) := by
    intro x
    rw [mainLoop_cout]
    simp only [List.mem_append, List.mem_singleton]
    constructor
    · rintro ((hx | hx) | hx)
      · obtain ⟨line, hl⟩ := poll_cout ops vt sensors w _ hx
        cases hl
      · split_ifs at hx
      · split_ifs at hx with ha
        · exact ⟨ha, Printed.alarm.inj (List.mem_singleton.mp hx)⟩
        · simp at hx
    · rintro ⟨ha, hx⟩
      right
      rw [if_pos ha, hx]
      simp
  refine ⟨?_, by rw [mainLoop_locals]; exact halarm, ?_,
    mem_valid_readings_not_nan ops vt sensors w, hirrefl _⟩
  · constructor
    · rintro ⟨x, hx⟩
      exact halarm.mp ((hout x).mp hx).1
    · intro h
      exact ⟨_, (hout _).mpr ⟨halarm.mpr h, rfl⟩⟩
  · intro x hx
    obtain ⟨ha, hxm⟩ := (hout x).mp hx
    obtain ⟨t, ht, hgt⟩ := halarm.mp ha
    obtain ⟨hub, hmem⟩ := mainLoop_max_temp_seen ops vt sensors w hlaws
    rw [mainLoop_locals] at hub hmem
    rw [← hxm] at hub hmem
    have hxv : x ∈ valid_readings ops vt sensors w := by
      rcases hmem with hm | hm
      · have h1 : ops.gt t ops.lit_minus_1e9 = true := htrans _ _ _ hgt hseed
        have h2 := hub t ht
        rw [hm, h1] at h2
        exact absurd h2 (by decide)
      · exact hm
    refine ⟨by rw [mainLoop_locals]; exact hxm, hxv, hub, ?_⟩
    cases hxt : ops.gt x (alarm_threshold ops) with
    | true => rfl
    | false =>
      have h := hneg t x (alarm_threshold ops)
        (mem_valid_readings_not_nan ops vt sensors w t ht)
        (mem_valid_readings_not_nan ops vt sensors w x hxv) hthr (hub t ht) hxt
      rw [hgt] at h
      exact absurd h (by decide)

/-- Witness of C13: readings `20.0`, NaN and `35.0` raise the alarm with `35.0`;
readings `30.0` and NaN do not raise it. -/
theorem alarm_iff_valid_above_threshold_witness :
    rational_double.ComparisonLaws ∧
    (∃ x, Printed.alarm x ∈ (mainLoop rational_double queue_sensor [none, none, none]
      [some 20, none, some 35]).cout) ∧
    (mainLoop rational_double queue_sensor [none, none, none]
      [some 20, none, some 35]).cout.getLast? = some (Printed.alarm (some 35)) ∧
    (mainLoop rational_double queue_sensor [none, none]
      [some 30, none]).locals.alarm = false :=
  ⟨rational_double_laws,
    (alarm_iff_valid_above_threshold rational_double queue_sensor [none, none, none]
      [some 20, none, some 35] rational_double_laws).1.mpr
      ⟨some 35, by decide, by decide⟩,
    by decide,
    Bool.eq_false_iff.mpr fun h =>
      absurd ((alarm_iff_valid_above_threshold rational_double queue_sensor [none, none]
        [some 30, none] rational_double_laws).2.1.mp h) (by decide)⟩

end multisensor_example
